import Mathlib

/-!
# Verification of the Disktest core against its specification

Shallow embedding of the core modules of the Disktest repository
(`src/core/patterns.py`, `src/core/file_manager.py`,
`src/core/file_analyzer.py`, `src/core/session.py`,
`src/core/test_engine.py`, `src/gui/test_controller.py`).

Conventions of the embedding:
* Python floats holding GB sizes are modelled as exact rationals (`ℚ`);
  `int(x)` is `pyTrunc` (truncation toward zero).
* CPython's `random.Random` (Mersenne Twister) is modelled concretely:
  32-bit machine words are `Nat` reduced with `m32` (mod `2 ^ 32`).
* Fallible constructors and methods return `Except String`.
* Byte strings are `List Nat`.
-/

namespace Disktest

/-- Python `int(x)` applied to a float: truncation toward zero. -/
def pyTrunc (q : ℚ) : ℤ := if 0 ≤ q then ⌊q⌋ else -⌊-q⌋

/-! ## CPython `random.Random` (Mersenne Twister, `_randommodule.c`) -/

/-- Reduction to a 32-bit machine word. -/
def m32 (x : Nat) : Nat := x % 4294967296

/-- Internal state of CPython's Mersenne Twister: 624 words of 32 bits and
the index `mti` of the next untempered word. -/
structure MTState where
  mt : Array Nat
  mti : Nat
deriving Repr

/-- `init_genrand`: fill of the state array from a 32-bit seed word. -/
def initGenrand (s : Nat) : Array Nat :=
  (List.range 623).foldl
    (fun acc i =>
      let prev := acc[acc.size - 1]!
      acc.push (m32 (1812433253 * (prev ^^^ (prev >>> 30)) + (i + 1))))
    #[m32 s]

/-- First mixing pass of `init_by_array` (constant 1664525). -/
def ibaStep1 (key : List Nat) (st : Array Nat × Nat × Nat) (_ : Nat) :
    Array Nat × Nat × Nat :=
  let (mt, i, j) := st
  let prev := mt[i - 1]!
  let v := m32 ((mt[i]! ^^^ m32 ((prev ^^^ (prev >>> 30)) * 1664525)) + key[j]! + j)
  let mt := mt.set! i v
  let i := i + 1
  let j := j + 1
  let (mt, i) := if i ≥ 624 then (mt.set! 0 (mt[623]!), 1) else (mt, i)
  let j := if j ≥ key.length then 0 else j
  (mt, i, j)

/-- Second mixing pass of `init_by_array` (constant 1566083941); the
subtraction of `i` is 32-bit wraparound subtraction. -/
def ibaStep2 (st : Array Nat × Nat) (_ : Nat) : Array Nat × Nat :=
  let (mt, i) := st
  let prev := mt[i - 1]!
  let v := m32 ((mt[i]! ^^^ m32 ((prev ^^^ (prev >>> 30)) * 1566083941)) + (4294967296 - m32 i))
  let mt := mt.set! i v
  let i := i + 1
  let (mt, i) := if i ≥ 624 then (mt.set! 0 (mt[623]!), 1) else (mt, i)
  (mt, i)

/-- `init_by_array`: seeding from a key of 32-bit words. -/
def initByArray (key : List Nat) : Array Nat :=
  let mt0 := initGenrand 19650218
  let k1 := max 624 key.length
  let s1 := (List.range k1).foldl (ibaStep1 key) (mt0, 1, 0)
  let s2 := (List.range 623).foldl ibaStep2 (s1.1, s1.2.1)
  s2.1.set! 0 2147483648

/-- Little-endian 32-bit digits of a nonzero natural number. -/
def natKey : Nat → List Nat
  | 0 => []
  | n + 1 => m32 (n + 1) :: natKey ((n + 1) / 4294967296)
decreasing_by exact Nat.div_lt_self (Nat.succ_pos n) (by norm_num)

/-- CPython `random_seed`: the (absolute value of the) integer seed split
into 32-bit words, with `[0]` for seed 0. -/
def seedKey (a : Nat) : List Nat := if a = 0 then [0] else natKey a

/-- One step of the in-place state twist. -/
def twistStep (mt : Array Nat) (k : Nat) : Array Nat :=
  let y := (mt[k]! &&& 2147483648) ||| (mt[(k + 1) % 624]! &&& 2147483647)
  let v := mt[(k + 397) % 624]! ^^^ (y >>> 1) ^^^ (if y % 2 = 1 then 2567483615 else 0)
  mt.set! k v

/-- Regeneration of the 624-word state block. -/
def twist (mt : Array Nat) : Array Nat := (List.range 624).foldl twistStep mt

/-- Output tempering of one 32-bit word. -/
def temper (y : Nat) : Nat :=
  let y := y ^^^ (y >>> 11)
  let y := y ^^^ (m32 (y <<< 7) &&& 2636928640)
  let y := y ^^^ (m32 (y <<< 15) &&& 4022730752)
  y ^^^ (y >>> 18)

/-- `genrand_uint32`: produce the next tempered 32-bit word. -/
def genrandUint32 (st : MTState) : Nat × MTState :=
  let st := if st.mti ≥ 624 then MTState.mk (twist st.mt) 0 else st
  (temper (st.mt[st.mti]!), MTState.mk st.mt (st.mti + 1))

/-- `getrandbits(k)`: assemble `k` random bits from 32-bit words,
little-endian, the last word truncated to the remaining bits. -/
def getrandbits (st : MTState) (k : Nat) : Nat × MTState :=
  let words := (k + 31) / 32
  (List.range words).foldl
    (fun (acc : Nat × MTState) i =>
      let (r, st2) := genrandUint32 acc.2
      let bitsLeft := k - 32 * i
      let r := if bitsLeft < 32 then r >>> (32 - bitsLeft) else r
      (acc.1 + (r <<< (32 * i)), st2))
    (0, st)

/-- `Random.randbytes(n)`: `getrandbits(8 n)` converted to `n` bytes,
little-endian. -/
def randbytes (st : MTState) (n : Nat) : List Nat × MTState :=
  let (big, st2) := getrandbits st (8 * n)
  ((List.range n).map (fun j => (big >>> (8 * j)) % 256), st2)

/-- `random.Random(seed)`: state seeded through `init_by_array`, with
`mti = 624` forcing a twist before the first output. -/
def pyRandomNew (seed : Nat) : MTState := MTState.mk (initByArray (seedKey seed)) 624

/-! ## `src/core/patterns.py` -/

/-- `PatternType`: the five test patterns. -/
inductive PatternType
  | ZERO
  | ONE
  | ALT_AA
  | ALT_55
  | RANDOM
deriving DecidableEq, Repr

/-- `PatternType.value`: the string value of each enum member. -/
def PatternType.value : PatternType → String
  | .ZERO => "00"
  | .ONE => "FF"
  | .ALT_AA => "AA"
  | .ALT_55 => "55"
  | .RANDOM => "RND"

/-- `PATTERN_SEQUENCE`: the canonical pattern order. -/
def PATTERN_SEQUENCE : List PatternType := [.ZERO, .ONE, .ALT_AA, .ALT_55, .RANDOM]

/-- `PatternGenerator`: pattern type, stored seed (`None` for the fixed
patterns) and the `_random` stream (`None` for the fixed patterns). -/
structure PatternGenerator where
  pattern_type : PatternType
  seed : Option Nat
  rng : Option MTState

/-- `PatternGenerator.__init__`: for `RANDOM` the given seed, or a freshly
drawn one (`autoSeed` stands for the ambient `random.randint` draw), seeds
a new `random.Random`; the fixed patterns carry no seed and no stream. -/
def PatternGenerator.init (t : PatternType) (seed : Option Nat) (autoSeed : Nat) :
    PatternGenerator :=
  if t = .RANDOM then
    let s := seed.getD autoSeed
    PatternGenerator.mk t (some s) (some (pyRandomNew s))
  else
    PatternGenerator.mk t none none

/-- `generate_chunk(size)`: constant bytes for the fixed patterns,
`randbytes` for `RANDOM` (the `none` stream case is unreachable for
generators built by `init`). -/
def PatternGenerator.generate_chunk (g : PatternGenerator) (size : Nat) :
    List Nat × PatternGenerator :=
  match g.pattern_type with
  | .ZERO => (List.replicate size 0, g)
  | .ONE => (List.replicate size 255, g)
  | .ALT_AA => (List.replicate size 170, g)
  | .ALT_55 => (List.replicate size 85, g)
  | .RANDOM =>
    match g.rng with
    | some st =>
      let (bs, st2) := randbytes st size
      (bs, { g with rng := some st2 })
    | none => ([], g)

/-- `reset()`: re-seed the `RANDOM` stream from the stored seed; no-op for
the fixed patterns. -/
def PatternGenerator.reset (g : PatternGenerator) : PatternGenerator :=
  if g.pattern_type = .RANDOM ∧ g.seed ≠ none then
    { g with rng := g.seed.map pyRandomNew }
  else g

/-- The chunk outputs of a generator over a sequence of requested sizes. -/
def chunkOutputs (g : PatternGenerator) : List Nat → List (List Nat)
  | [] => []
  | n :: rest =>
    let p := g.generate_chunk n
    p.1 :: chunkOutputs p.2 rest

/-- The generator state after a sequence of requested chunk sizes. -/
def runChunks (g : PatternGenerator) : List Nat → PatternGenerator
  | [] => g
  | n :: rest => runChunks (g.generate_chunk n).2 rest

/-- `generate_chunk` never changes the pattern type or the stored seed. -/
theorem generate_chunk_preserves (g : PatternGenerator) (n : Nat) :
    (g.generate_chunk n).2.pattern_type = g.pattern_type ∧
      (g.generate_chunk n).2.seed = g.seed := by
  rcases g with ⟨t, s, r⟩
  cases t <;> simp [PatternGenerator.generate_chunk]
  cases r <;> simp

/-- `runChunks` never changes the pattern type or the stored seed. -/
theorem runChunks_preserves (sizes : List Nat) (g : PatternGenerator) :
    (runChunks g sizes).pattern_type = g.pattern_type ∧
      (runChunks g sizes).seed = g.seed := by
  induction sizes generalizing g with
  | nil => exact ⟨rfl, rfl⟩
  | cons n rest ih =>
    have h := generate_chunk_preserves g n
    have h2 := ih (g.generate_chunk n).2
    exact ⟨h2.1.trans h.1, h2.2.trans h.2⟩

/-- A fixed-pattern generator is left unchanged by `generate_chunk`. -/
theorem generate_chunk_fixed (g : PatternGenerator) (n : Nat)
    (h : g.pattern_type ≠ .RANDOM) : (g.generate_chunk n).2 = g := by
  rcases g with ⟨t, s, r⟩
  cases t <;> simp_all [PatternGenerator.generate_chunk]

/-- `reset` after any sequence of chunk requests restores a seeded
generator to its initial state. -/
theorem reset_runChunks_init (t : PatternType) (s autoSeed : Nat) (sizes : List Nat) :
    (runChunks (PatternGenerator.init t (some s) autoSeed) sizes).reset
      = PatternGenerator.init t (some s) autoSeed := by
  by_cases ht : t = .RANDOM
  · subst ht
    have hpres := runChunks_preserves sizes (PatternGenerator.init .RANDOM (some s) autoSeed)
    have hinit : PatternGenerator.init .RANDOM (some s) autoSeed
        = PatternGenerator.mk .RANDOM (some s) (some (pyRandomNew s)) := by
      simp [PatternGenerator.init]
    rw [hinit] at hpres ⊢
    rcases hrun : runChunks (PatternGenerator.mk .RANDOM (some s) (some (pyRandomNew s))) sizes
      with ⟨t2, s2, r2⟩
    rw [hrun] at hpres
    obtain ⟨ht2, hs2⟩ := hpres
    simp at ht2 hs2
    subst ht2; subst hs2
    simp [PatternGenerator.reset]
  · have hinit : PatternGenerator.init t (some s) autoSeed = PatternGenerator.mk t none none := by
      simp [PatternGenerator.init, ht]
    have hrun : ∀ g : PatternGenerator, g.pattern_type ≠ .RANDOM → runChunks g sizes = g := by
      intro g hg
      induction sizes generalizing g with
      | nil => rfl
      | cons n rest ih =>
        show runChunks (g.generate_chunk n).2 rest = g
        rw [generate_chunk_fixed g n hg]
        exact ih g hg
    rw [hinit, hrun _ (by simpa using ht)]
    simp [PatternGenerator.reset, ht]

/-- C7: random-pattern reproducibility. Two generators built with the same
pattern type and the same explicit seed produce byte-identical chunk
sequences for every sequence of requested sizes (whatever fresh seeds the
ambient `random.randint` would have drawn), and after any sequence of
requests, `reset()` makes the next `generate_chunk n` return exactly the
same `n` bytes as the first `generate_chunk n` after construction. -/
theorem C7_random_reproducibility (t : PatternType) (s a₁ a₂ : Nat)
    (sizes : List Nat) (n : Nat) :
    chunkOutputs (PatternGenerator.init t (some s) a₁) sizes
        = chunkOutputs (PatternGenerator.init t (some s) a₂) sizes
      ∧ ((runChunks (PatternGenerator.init t (some s) a₁) sizes).reset.generate_chunk n).1
        = ((PatternGenerator.init t (some s) a₁).generate_chunk n).1 := by
  constructor
  · have h : PatternGenerator.init t (some s) a₁ = PatternGenerator.init t (some s) a₂ := by
      simp [PatternGenerator.init]
    rw [h]
  · rw [reset_runChunks_init]

/-! ## `src/core/file_manager.py` -/

namespace FileManager

/-- The size validation in `FileManager.__init__` (the path checks concern
the filesystem and are outside the embedding). -/
def checkFileSize (file_size_gb : ℚ) : Except String Unit :=
  if file_size_gb ≤ 0 then .error "Dateigroesse muss groesser als 0 sein"
  else if file_size_gb > 10240 then .error "Dateigroesse zu gross, max 10 TB"
  else .ok ()

/-- `FileManager._calculate_digits`. -/
def calculate_digits (file_count : Nat) : Nat :=
  if file_count < 1000 then 3
  else if file_count < 10000 then 4
  else if file_count < 100000 then 5
  else 6

/-- `FileManager.calculate_file_count`; `file_size_gb` is the value stored
by the constructor. -/
def calculate_file_count (file_size_gb total_size_gb : ℚ) : Except String Nat :=
  if total_size_gb ≤ 0 then .error "Gesamtgroesse muss groesser als 0 sein"
  else if total_size_gb > 1000000 then .error "Gesamtgroesse zu gross, max 1 PB"
  else
    let count := max 1 (pyTrunc (total_size_gb / file_size_gb)).toNat
    if count > 999999 then .error "Zu viele Dateien, max 999999"
    else .ok count

/-- Python `f"{n:0{d}d}"` for a nonnegative number: left pad with zeros to
width `d`. -/
def zfill (n : Nat) (d : Nat) : String :=
  let s := toString n
  String.mk (List.replicate (d - s.length) '0') ++ s

/-- `FileManager.get_file_path` (the directory part of the path is
omitted; `digits` is the stored `_digits`). -/
def get_file_path (digits : Nat) (index : ℤ) : Except String String :=
  if index < 0 then .error "Index muss groessergleich 0 sein"
  else
    let max_index : ℤ := 10 ^ digits - 1
    if index ≥ max_index then .error "Index zu gross"
    else .ok ("disktest_" ++ zfill (index + 1).toNat digits ++ ".dat")

end FileManager

/-- Mirror of the spec's `calculate_file_count` clause: `max(1,
floor(total/per_file))`, erroring exactly on non-positive totals and on
counts above 999,999. -/
def calcFileCountClaim (file_size_gb total_size_gb : ℚ) : Except String Nat :=
  if total_size_gb ≤ 0 then .error "Gesamtgroesse muss groesser als 0 sein"
  else
    let count := max 1 (pyTrunc (total_size_gb / file_size_gb)).toNat
    if count > 999999 then .error "Zu viele Dateien, max 999999"
    else .ok count

/-- C8: file naming. The digit width is 3 for fewer than 1000 files, 4
below 10000, 5 below 100000 and 6 otherwise; a valid request yields
`"disktest_" ++ zero-padded 1-based file number ++ ".dat"`; the request
raises exactly for a negative index or a file number above
`10 ^ width - 1`. -/
theorem C8_file_naming (n : Nat) (index : ℤ) :
    ((n < 1000 → FileManager.calculate_digits n = 3)
      ∧ (1000 ≤ n → n < 10000 → FileManager.calculate_digits n = 4)
      ∧ (10000 ≤ n → n < 100000 → FileManager.calculate_digits n = 5)
      ∧ (100000 ≤ n → FileManager.calculate_digits n = 6))
    ∧ (0 ≤ index → index + 1 ≤ 10 ^ (FileManager.calculate_digits n) - 1 →
        FileManager.get_file_path (FileManager.calculate_digits n) index
          = .ok ("disktest_"
              ++ FileManager.zfill (index + 1).toNat (FileManager.calculate_digits n)
              ++ ".dat"))
    ∧ ((FileManager.get_file_path (FileManager.calculate_digits n) index).isOk = false
        ↔ index < 0 ∨ 10 ^ (FileManager.calculate_digits n) - 1 < index + 1) := by
  refine ⟨⟨?_, ?_, ?_, ?_⟩, ?_, ?_⟩
  · intro h; unfold FileManager.calculate_digits; split_ifs <;> omega
  · intro h1 h2; unfold FileManager.calculate_digits; split_ifs <;> omega
  · intro h1 h2; unfold FileManager.calculate_digits; split_ifs <;> omega
  · intro h1; unfold FileManager.calculate_digits; split_ifs <;> omega
  · intro h1 h2
    rw [FileManager.get_file_path, if_neg (by omega), if_neg (by omega)]
  · rw [FileManager.get_file_path]
    by_cases h1 : index < 0
    · rw [if_pos h1]
      exact ⟨fun _ => Or.inl h1, fun _ => rfl⟩
    · rw [if_neg h1]
      by_cases h2 : index ≥ 10 ^ (FileManager.calculate_digits n) - 1
      · rw [if_pos h2]
        exact ⟨fun _ => Or.inr (by omega), fun _ => rfl⟩
      · rw [if_neg h2]
        refine ⟨fun habs => (Bool.false_ne_true habs.symm).elim, fun hor => ?_⟩
        exfalso
        rcases hor with h | h
        · exact h1 h
        · omega

/-- C8 witness: 5 files give width 3, and the file with 0-based index 4
(file number 5) is named `disktest_005.dat`. -/
theorem C8_file_naming_witness :
    FileManager.get_file_path (FileManager.calculate_digits 5) 4
      = .ok ("disktest_" ++ FileManager.zfill ((4 : ℤ) + 1).toNat
          (FileManager.calculate_digits 5) ++ ".dat") :=
  (C8_file_naming 5 4).2.1 (by decide) (by decide)

/-- C9 counterexample: at 10 GB per file and a 2,000,000 GB total, the
claimed specification returns 200,000 files (well below the 999,999
limit), but the code raises because of its 1 PB cap on the total size. -/
theorem C9_counterexample :
    (FileManager.calculate_file_count 10 2000000).isOk = false
      ∧ calcFileCountClaim 10 2000000 = .ok 200000 := by
  have h : pyTrunc ((2000000 : ℚ) / 10) = 200000 := by
    rw [pyTrunc, if_pos (by norm_num)]
    norm_num
  constructor
  · have he : FileManager.calculate_file_count 10 2000000
        = .error "Gesamtgroesse zu gross, max 1 PB" := by
      rw [FileManager.calculate_file_count]
      norm_num
    rw [he]
    rfl
  · rw [calcFileCountClaim, if_neg (by norm_num), h, if_neg (by decide)]
    simp only [Except.ok.injEq]
    omega

/-- C9 (amended): `calculate_file_count` returns
`max 1 ⌊total / per_file⌋` and raises exactly when the total is
non-positive, or the total exceeds 1,000,000 GB, or the count would
exceed 999,999. -/
theorem C9_file_count (file_size_gb total_size_gb : ℚ) :
    (0 < total_size_gb → total_size_gb ≤ 1000000 →
        max 1 (pyTrunc (total_size_gb / file_size_gb)).toNat ≤ 999999 →
        FileManager.calculate_file_count file_size_gb total_size_gb
          = .ok (max 1 (pyTrunc (total_size_gb / file_size_gb)).toNat))
    ∧ ((FileManager.calculate_file_count file_size_gb total_size_gb).isOk = true
        ↔ 0 < total_size_gb ∧ total_size_gb ≤ 1000000
          ∧ max 1 (pyTrunc (total_size_gb / file_size_gb)).toNat ≤ 999999) := by
  constructor
  · intro h1 h2 h3
    rw [FileManager.calculate_file_count, if_neg (by linarith), if_neg (by linarith),
      if_neg (by omega)]
  · rw [FileManager.calculate_file_count]
    by_cases h1 : total_size_gb ≤ 0
    · rw [if_pos h1]
      exact ⟨fun habs => (Bool.false_ne_true habs).elim,
        fun hc => absurd h1 (not_le.mpr hc.1)⟩
    · rw [if_neg h1]
      by_cases h2 : total_size_gb > 1000000
      · rw [if_pos h2]
        exact ⟨fun habs => (Bool.false_ne_true habs).elim,
          fun hc => absurd h2 (not_lt.mpr hc.2.1)⟩
      · rw [if_neg h2]
        by_cases h3 : max 1 (pyTrunc (total_size_gb / file_size_gb)).toNat > 999999
        · rw [if_pos h3]
          exact ⟨fun habs => (Bool.false_ne_true habs).elim,
            fun hc => absurd h3 (not_lt.mpr hc.2.2)⟩
        · rw [if_neg h3]
          exact ⟨fun _ => ⟨not_le.mp h1, not_lt.mp h2, not_lt.mp h3⟩, fun _ => rfl⟩

/-- C9 witness: the spec's example, 100 GB total at 1 GB per file gives
exactly 100 files. -/
theorem C9_file_count_witness :
    FileManager.calculate_file_count 1 100
        = .ok (max 1 (pyTrunc ((100 : ℚ) / 1)).toNat)
      ∧ max 1 (pyTrunc ((100 : ℚ) / 1)).toNat = 100 := by
  have h : pyTrunc ((100 : ℚ) / 1) = 100 := by
    rw [pyTrunc, if_pos (by norm_num)]; norm_num
  exact ⟨(C9_file_count 1 100).1 (by norm_num) (by norm_num) (by rw [h]; decide),
    by rw [h]; decide⟩

/-- C10: undocumented upper bounds. The constructor rejects any per-file
size above 10,240 GB, and `calculate_file_count` rejects any total above
1,000,000 GB regardless of the per-file size (so even when the resulting
count would be within the 999,999 limit). -/
theorem C10_interface_bounds (file_size_gb total_size_gb q : ℚ) :
    (10240 < file_size_gb → (FileManager.checkFileSize file_size_gb).isOk = false)
      ∧ (1000000 < total_size_gb →
          (FileManager.calculate_file_count q total_size_gb).isOk = false) := by
  constructor
  · intro h
    have he : FileManager.checkFileSize file_size_gb
        = .error "Dateigroesse zu gross, max 10 TB" := by
      rw [FileManager.checkFileSize, if_neg (by linarith), if_pos (by linarith)]
    rw [he]
    rfl
  · intro h
    have he : FileManager.calculate_file_count q total_size_gb
        = .error "Gesamtgroesse zu gross, max 1 PB" := by
      rw [FileManager.calculate_file_count, if_neg (by linarith), if_pos (by linarith)]
    rw [he]
    rfl

/-- C10 witness: 10,241 GB per file is rejected, and a 2,000,000 GB total
is rejected at 10 GB per file even though the count 200,000 would be
within the limit. -/
theorem C10_interface_bounds_witness :
    (FileManager.checkFileSize 10241).isOk = false
      ∧ (FileManager.calculate_file_count 10 2000000).isOk = false
      ∧ max 1 (pyTrunc ((2000000 : ℚ) / 10)).toNat ≤ 999999 := by
  have h : pyTrunc ((2000000 : ℚ) / 10) = 200000 := by
    rw [pyTrunc, if_pos (by norm_num)]; norm_num
  exact ⟨(C10_interface_bounds 10241 2000000 10).1 (by norm_num),
    (C10_interface_bounds 10241 2000000 10).2 (by norm_num),
    by rw [h]; decide⟩

/-! ## `src/core/session.py` and the progress computations -/

/-- The two phases of a pattern run (`current_phase` strings `"write"` /
`"verify"`). -/
inductive Phase
  | write
  | verify
deriving DecidableEq, Repr

namespace TestEngine

/-- `TestEngine.CHUNK_SIZE` (32 MiB). -/
def CHUNK_SIZE : Nat := 33554432

end TestEngine

/-- The fields declared by the `SessionData` dataclass in
`src/core/session.py`, in order. -/
def sessionDataFields : List String :=
  ["target_path", "file_size_gb", "total_size_gb", "file_count",
   "current_pattern_index", "current_file_index", "current_phase",
   "current_chunk_index", "random_seed", "errors", "start_time",
   "elapsed_seconds", "version"]

/-- The keyword arguments `TestEngine._start_new_session` passes to the
`SessionData` constructor. -/
def startNewSessionKwargs : List String :=
  ["target_path", "file_size_gb", "total_size_gb", "file_count",
   "current_pattern_index", "current_pattern_name", "current_file_index",
   "current_phase", "current_chunk_index", "random_seed",
   "selected_patterns", "completed_patterns"]

/-- A Python dataclass `__init__` accepts a keyword call only when every
keyword names a declared field; otherwise it raises
`TypeError: unexpected keyword argument`. -/
def dataclassCallAccepted (fields kwargs : List String) : Bool :=
  kwargs.all (fun k => fields.contains k)

/-- C1: the engine's new-session construction does NOT succeed: the
keyword call in `TestEngine._start_new_session` passes
`current_pattern_name`, `selected_patterns` and `completed_patterns`, none
of which is a declared field of the persisted `SessionData` record, so the
dataclass constructor raises `TypeError` instead of yielding a record
carrying those fields. -/
theorem C1_new_session_construction_raises :
    dataclassCallAccepted sessionDataFields startNewSessionKwargs = false
      ∧ startNewSessionKwargs.contains "current_pattern_name" = true
      ∧ sessionDataFields.contains "current_pattern_name" = false
      ∧ startNewSessionKwargs.contains "selected_patterns" = true
      ∧ sessionDataFields.contains "selected_patterns" = false
      ∧ startNewSessionKwargs.contains "completed_patterns" = true
      ∧ sessionDataFields.contains "completed_patterns" = false := by
  decide

/-- The union of the session fields read by
`SessionData.get_progress_percentage` and by
`TestController._calculate_test_progress` (pattern values are kept as
their session strings). -/
structure ProgressState where
  current_pattern_index : Nat
  current_phase : Phase
  current_file_index : Nat
  current_chunk_index : Nat
  file_count : Nat
  file_size_gb : ℚ
  selected_patterns : List String
  completed_patterns : List String
deriving DecidableEq

/-- `SessionData.get_progress_percentage`: a fixed total of 10 phase-units
(5 patterns × 2), whole phases counted from `current_pattern_index`, file
fraction `current_file_index / file_count`, clamped to [0, 100]. -/
def get_progress_percentage (s : ProgressState) : ℚ :=
  let total_phases : ℚ := 10
  let current_phase_num : ℚ :=
    (s.current_pattern_index : ℚ) * 2 + (if s.current_phase = .verify then 1 else 0)
  let phase_progress : ℚ :=
    if 0 < s.file_count then (s.current_file_index : ℚ) / (s.file_count : ℚ) else 0
  min 100 (max 0 ((current_phase_num + phase_progress) / total_phases * 100))

/-- The byte-level fraction of the current phase used by
`TestController._calculate_test_progress`: processed bytes of the phase
over `file_count * bytes_per_file`, capped at 1. -/
def phase_fraction (s : ProgressState) : ℚ :=
  let bytes_per_file : ℤ := pyTrunc (s.file_size_gb * 1073741824)
  let bytes_per_phase : ℤ := (s.file_count : ℤ) * bytes_per_file
  let phase_bytes : ℤ :=
    (s.current_file_index : ℤ) * bytes_per_file
      + (s.current_chunk_index : ℤ) * (TestEngine.CHUNK_SIZE : ℤ)
  if 0 < bytes_per_phase then min 1 ((phase_bytes : ℚ) / (bytes_per_phase : ℚ)) else 0

/-- `TestController._calculate_test_progress`: completed patterns count 2
phase-units each, the Verify phase adds 1, plus the byte fraction of the
current phase; divided by twice the selected-pattern count (default 5 when
the selection is empty), times 100, truncated to an integer and clamped to
[0, 100]. -/
def calculate_test_progress (s : ProgressState) : ℤ :=
  let total_patterns : Nat :=
    if s.selected_patterns = [] then 5 else s.selected_patterns.length
  let completed_patterns : Nat := s.completed_patterns.length
  let current_phase_value : ℚ := if s.current_phase = .verify then 1 else 0
  let total_phases : Nat := total_patterns * 2
  let completed_phases : ℚ :=
    (completed_patterns : ℚ) * 2 + current_phase_value + phase_fraction s
  let percent : ℤ :=
    if 0 < total_phases then pyTrunc (completed_phases / (total_phases : ℚ) * 100) else 0
  min 100 (max 0 percent)

/-- The claim's progress formula:
`(completed*2 + verify-bit + fraction) / (selected*2) * 100`, clamped to
[0, 100]. -/
def progressClaim (s : ProgressState) : ℚ :=
  min 100 (max 0
    (((s.completed_patterns.length : ℚ) * 2
        + (if s.current_phase = .verify then 1 else 0) + phase_fraction s)
      / ((s.selected_patterns.length : ℚ) * 2) * 100))

/-- Session state refuting C4 for `get_progress_percentage`: one selected
pattern, none completed, Verify phase halfway through the files. -/
def c4State : ProgressState :=
  { current_pattern_index := 0
    current_phase := .verify
    current_file_index := 1
    current_chunk_index := 0
    file_count := 2
    file_size_gb := 1
    selected_patterns := ["00"]
    completed_patterns := [] }

/-- C4 counterexample: on `c4State` the claim's formula gives 75 %, but
`SessionData.get_progress_percentage` — the session's `progress_percent` —
gives 15 %, because it divides by a fixed 10 phase-units and counts whole
phases from `current_pattern_index` instead of the completed-patterns
list. -/
theorem C4_counterexample :
    get_progress_percentage c4State = 15 ∧ progressClaim c4State = 75 := by
  have hfrac : phase_fraction c4State = 1 / 2 := by
    have hbpf : pyTrunc ((1 : ℚ) * 1073741824) = 1073741824 := by
      rw [pyTrunc, if_pos (by norm_num)]
      norm_num
    simp only [phase_fraction, c4State]
    rw [hbpf]
    norm_num
  constructor
  · simp only [get_progress_percentage, c4State]
    norm_num [min_def, max_def]
  · simp only [progressClaim, c4State] at hfrac ⊢
    rw [hfrac]
    norm_num [min_def, max_def]

/-- C4 (amended): the GUI controller's `_calculate_test_progress` does
follow the claimed formula — completed patterns from the
completed-patterns list, denominator twice the selected-pattern count —
with the quotient truncated to an integer before the [0, 100] clamp,
whenever at least one pattern is selected. -/
theorem C4_controller_progress (s : ProgressState) (h : s.selected_patterns ≠ []) :
    calculate_test_progress s
      = min 100 (max 0 (pyTrunc
          (((s.completed_patterns.length : ℚ) * 2
              + (if s.current_phase = .verify then 1 else 0) + phase_fraction s)
            / ((s.selected_patterns.length : ℚ) * 2) * 100))) := by
  have hlen : 0 < s.selected_patterns.length := List.length_pos.mpr h
  simp only [calculate_test_progress, if_neg h, if_pos (by omega : 0 < s.selected_patterns.length * 2)]
  norm_num [mul_comm]

/-- The spec's progress example: 5 selected patterns, 2 completed, Verify
phase of the 3rd pattern at 50 % file progress. -/
def c4Wit : ProgressState :=
  { current_pattern_index := 2
    current_phase := .verify
    current_file_index := 1
    current_chunk_index := 0
    file_count := 2
    file_size_gb := 1
    selected_patterns := ["00", "FF", "AA", "55", "RND"]
    completed_patterns := ["00", "FF"] }

/-- C4 witness: the spec's example — 5 selected patterns, 2 completed,
Verify phase at 50 % file progress — where the controller reports 55 %. -/
theorem C4_controller_progress_witness :
    calculate_test_progress c4Wit = 55 := by
  have h := C4_controller_progress c4Wit (by decide)
  have hfrac : phase_fraction c4Wit = 1 / 2 := by
    have hbpf : pyTrunc ((1 : ℚ) * 1073741824) = 1073741824 := by
      rw [pyTrunc, if_pos (by norm_num)]
      norm_num
    simp only [phase_fraction, c4Wit]
    rw [hbpf]
    norm_num
  rw [h, hfrac]
  have h55 : pyTrunc ((55 : ℚ)) = 55 := by
    rw [pyTrunc, if_pos (by norm_num)]
    norm_num
  simp only [c4Wit]
  norm_num [h55, min_def, max_def]

/-! ## Error classification (`_write_file` / `_verify_file` handlers) -/

/-- A Python exception as the engine's handlers see it: an `OSError`
carrying an errno, or any other exception. -/
inductive PyExc
  | os (errno : Nat)
  | other
deriving DecidableEq, Repr

def ENOSPC : Nat := 28
def EIO : Nat := 5
def ENODEV : Nat := 19
def ENXIO : Nat := 6

/-- What an error handler does: the per-file return value, whether the
engine state becomes ERROR, whether the session is saved by the handler,
and whether the error is recorded (error count and session error list). -/
structure ErrorOutcome where
  returns_success : Bool
  state_error : Bool
  session_saved : Bool
  recorded : Bool
deriving DecidableEq, Repr

/-- The `except` dispatch of `TestEngine._write_file`: ENOSPC →
`_handle_disk_full`; EIO/ENODEV/ENXIO → `_handle_drive_error`; any other
`OSError` or exception → `_handle_write_error` and continue. -/
def writeErrorOutcome : PyExc → ErrorOutcome
  | .os e =>
    if e = ENOSPC then ErrorOutcome.mk false true true true
    else if e = EIO ∨ e = ENODEV ∨ e = ENXIO then ErrorOutcome.mk false true true true
    else ErrorOutcome.mk true false false true
  | .other => ErrorOutcome.mk true false false true

/-- The `except` dispatch of `TestEngine._verify_file`: EIO/ENODEV/ENXIO →
`_handle_drive_error`; any other `OSError` or exception →
`_handle_read_error` and continue (there is no ENOSPC case here). -/
def verifyErrorOutcome : PyExc → ErrorOutcome
  | .os e =>
    if e = EIO ∨ e = ENODEV ∨ e = ENXIO then ErrorOutcome.mk false true true true
    else ErrorOutcome.mk true false false true
  | .other => ErrorOutcome.mk true false false true

/-- Error handling of the per-file operation of each phase. -/
def phaseErrorOutcome : Phase → PyExc → ErrorOutcome
  | .write => writeErrorOutcome
  | .verify => verifyErrorOutcome

/-- C5 counterexample: a disk-full `OSError` (ENOSPC) raised during the
Verify phase is handled by `_handle_read_error` as a NON-fatal read error
— the per-file operation reports success and the run advances — whereas
the claim says ENOSPC is fatal in either phase. -/
theorem C5_counterexample :
    phaseErrorOutcome .verify (.os ENOSPC)
      = ErrorOutcome.mk true false false true := by
  decide

/-- C5 (amended): classification of run errors. An error is fatal (the
per-file operation returns failure, so the pattern loop aborts) exactly
when it is ENOSPC during the Write phase or a drive/medium error
(EIO, ENODEV, ENXIO) in either phase; every fatal error sets the state to
ERROR and saves (retains) the session; every other exception is non-fatal:
it is recorded and the operation returns success so the run advances to
the next file; and every error is recorded. -/
theorem C5_error_classification (p : Phase) (e : PyExc) :
    ((phaseErrorOutcome p e).returns_success = false
        ↔ ((p = .write ∧ e = .os ENOSPC)
            ∨ e = .os EIO ∨ e = .os ENODEV ∨ e = .os ENXIO))
      ∧ ((phaseErrorOutcome p e).returns_success = false
          → (phaseErrorOutcome p e).state_error = true
            ∧ (phaseErrorOutcome p e).session_saved = true)
      ∧ ((phaseErrorOutcome p e).returns_success = true
          → (phaseErrorOutcome p e).state_error = false)
      ∧ (phaseErrorOutcome p e).recorded = true := by
  cases p <;> rcases e with e | _ <;>
    simp only [phaseErrorOutcome, writeErrorOutcome, verifyErrorOutcome,
      ENOSPC, EIO, ENODEV, ENXIO] <;>
    first
      | (split_ifs with h1 h2 <;> simp_all <;> omega)
      | simp

/-! ## `src/core/file_analyzer.py` -/

namespace FileAnalyzer

/-- `FileAnalyzer.SAMPLE_SIZE` (1 KiB read for pattern sniffing). -/
def SAMPLE_SIZE : Nat := 1024

/-- `FileAnalyzer.CHUNK_SIZE` (16 MiB; its comment says it must match
`test_engine.py`). -/
def CHUNK_SIZE : Nat := 16777216

/-- `int(expected_file_size_gb * 1024 * 1024 * 1024)` from
`FileAnalyzer.__init__`. -/
def file_size_bytes (gb : ℚ) : Nat := (pyTrunc (gb * 1073741824)).toNat

/-- `FileAnalyzer.expected_size`: chunk count by integer division, times
the analyzer's chunk size. -/
def expected_size (gb : ℚ) : Nat := (file_size_bytes gb / CHUNK_SIZE) * CHUNK_SIZE

/-- `FileAnalyzer._detect_pattern` on the sampled bytes: empty sample →
undetected; whole-block comparison against each fixed pattern; otherwise
`RANDOM` when the sample holds more than 10 distinct byte values. -/
def detect_pattern (sample : List Nat) : Option PatternType :=
  if sample.length = 0 then none
  else if sample = List.replicate sample.length 0 then some .ZERO
  else if sample = List.replicate sample.length 255 then some .ONE
  else if sample = List.replicate sample.length 170 then some .ALT_AA
  else if sample = List.replicate sample.length 85 then some .ALT_55
  else if 10 < sample.dedup.length then some .RANDOM
  else none

/-- `FileAnalysisResult` (the path field is omitted). -/
structure FileAnalysisResult where
  file_index : Nat
  detected_pattern : Option PatternType
  is_complete : Bool
  actual_size : Nat
  expected_size : Nat
deriving DecidableEq, Repr

/-- `FileAnalyzer._analyze_file` on a file's byte content. -/
def analyze_file (expected : Nat) (index : Nat) (content : List Nat) :
    FileAnalysisResult :=
  { file_index := index
    detected_pattern := detect_pattern (content.take SAMPLE_SIZE)
    is_complete := content.length == expected
    actual_size := content.length
    expected_size := expected }

/-- The three categories returned by `categorize_files`. -/
structure Categorized where
  complete : List FileAnalysisResult
  smaller_consistent : List FileAnalysisResult
  corrupted_incomplete : List FileAnalysisResult
deriving DecidableEq, Repr

/-- `FileAnalyzer.categorize_files`: the if/elif chain of the source, in
list order (`expected` is the analyzer's `self.expected_size`). -/
def categorize_files (expected : Nat) : List FileAnalysisResult → Categorized
  | [] => Categorized.mk [] [] []
  | r :: rest =>
    let c := categorize_files expected rest
    if r.detected_pattern = none ∨ r.actual_size = 0 ∨ r.actual_size > expected then
      { c with corrupted_incomplete := r :: c.corrupted_incomplete }
    else if r.actual_size = expected then
      { c with complete := r :: c.complete }
    else if 0 < r.actual_size ∧ r.actual_size < expected then
      { c with smaller_consistent := r :: c.smaller_consistent }
    else c

/-- The spec's Complete condition: exact size and a detected pattern. -/
def completeB (expected : Nat) (r : FileAnalysisResult) : Bool :=
  (r.actual_size == expected) && r.detected_pattern.isSome

/-- The spec's SmallerConsistent condition: positive size below the
expected size, with a detected pattern. -/
def smallerB (expected : Nat) (r : FileAnalysisResult) : Bool :=
  decide (0 < r.actual_size) && decide (r.actual_size < expected)
    && r.detected_pattern.isSome

/-- The spec's CorruptedIncomplete condition: undetected pattern, zero
size, or oversize. -/
def corruptedB (expected : Nat) (r : FileAnalysisResult) : Bool :=
  r.detected_pattern.isNone || (r.actual_size == 0) || decide (expected < r.actual_size)

/-- An analyzed file of size zero never has a detected pattern (the
1 KiB sample of an empty file is empty). -/
theorem analyze_file_zero_size (expected index : Nat) (content : List Nat)
    (h : (analyze_file expected index content).actual_size = 0) :
    (analyze_file expected index content).detected_pattern = none := by
  simp only [analyze_file] at h ⊢
  have hnil : content = [] := List.eq_nil_of_length_eq_zero h
  subst hnil
  rfl

end FileAnalyzer

/-- Per-element trichotomy: for any analysis result whose detected pattern
is absent at size zero, exactly one of the three spec categories holds. -/
theorem categories_exactly_one (e : Nat) (r : FileAnalyzer.FileAnalysisResult)
    (hr : r.actual_size = 0 → r.detected_pattern = none) :
    (FileAnalyzer.completeB e r).toNat + (FileAnalyzer.smallerB e r).toNat
      + (FileAnalyzer.corruptedB e r).toNat = 1 := by
  rcases hdet : r.detected_pattern with _ | p
  · simp [FileAnalyzer.completeB, FileAnalyzer.smallerB, FileAnalyzer.corruptedB, hdet]
  · have hne : r.actual_size ≠ 0 := by
      intro h0
      rw [hr h0] at hdet
      cases hdet
    rcases Nat.lt_trichotomy r.actual_size e with h | h | h
    · have hb1 : (r.actual_size == e) = false := beq_eq_false_iff_ne.mpr (Nat.ne_of_lt h)
      have hb2 : (r.actual_size == 0) = false := beq_eq_false_iff_ne.mpr hne
      simp [FileAnalyzer.completeB, FileAnalyzer.smallerB, FileAnalyzer.corruptedB,
        hb1, hb2, hdet, hne, Nat.pos_of_ne_zero hne, h, Nat.not_lt.mpr (Nat.le_of_lt h)]
    · simp [FileAnalyzer.completeB, FileAnalyzer.smallerB, FileAnalyzer.corruptedB,
        beq_iff_eq, hdet, hne, h, h ▸ hne, lt_irrefl]
    · simp [FileAnalyzer.completeB, FileAnalyzer.smallerB, FileAnalyzer.corruptedB,
        beq_iff_eq, hdet, hne, Nat.ne_of_gt h, h, Nat.not_lt.mpr (Nat.le_of_lt h)]

/-- The three spec-category booleans of an element in each branch of the
source's if/elif chain. -/
theorem categories_of_branches (e : Nat) (r : FileAnalyzer.FileAnalysisResult)
    (hr : r.actual_size = 0 → r.detected_pattern = none) :
    ((r.detected_pattern = none ∨ r.actual_size = 0 ∨ r.actual_size > e)
        → FileAnalyzer.corruptedB e r = true ∧ FileAnalyzer.completeB e r = false
          ∧ FileAnalyzer.smallerB e r = false)
      ∧ (¬(r.detected_pattern = none ∨ r.actual_size = 0 ∨ r.actual_size > e)
          → r.actual_size = e
          → FileAnalyzer.corruptedB e r = false ∧ FileAnalyzer.completeB e r = true
            ∧ FileAnalyzer.smallerB e r = false)
      ∧ (¬(r.detected_pattern = none ∨ r.actual_size = 0 ∨ r.actual_size > e)
          → r.actual_size ≠ e
          → (0 < r.actual_size ∧ r.actual_size < e)
            ∧ FileAnalyzer.corruptedB e r = false ∧ FileAnalyzer.completeB e r = false
              ∧ FileAnalyzer.smallerB e r = true) := by
  refine ⟨?_, ?_, ?_⟩
  · intro h1
    rcases h1 with hd | hz | hgt
    · simp [FileAnalyzer.corruptedB, FileAnalyzer.completeB, FileAnalyzer.smallerB, hd]
    · simp [FileAnalyzer.corruptedB, FileAnalyzer.completeB, FileAnalyzer.smallerB,
        hz, hr hz]
    · simp [FileAnalyzer.corruptedB, FileAnalyzer.completeB, FileAnalyzer.smallerB,
        hgt, Nat.ne_of_gt hgt, Nat.not_lt.mpr (Nat.le_of_lt hgt)]
  · intro h1 h2
    push_neg at h1
    obtain ⟨hd, hz, hle⟩ := h1
    simp [FileAnalyzer.corruptedB, FileAnalyzer.completeB, FileAnalyzer.smallerB,
      Option.isSome_iff_ne_none, hd, hz, h2, h2 ▸ hz,
      Nat.not_lt.mpr (le_of_eq h2.symm), lt_irrefl]
  · intro h1 h2
    push_neg at h1
    obtain ⟨hd, hz, hle⟩ := h1
    have hlt : r.actual_size < e := lt_of_le_of_ne hle h2
    refine ⟨⟨Nat.pos_of_ne_zero hz, hlt⟩, ?_⟩
    simp [FileAnalyzer.corruptedB, FileAnalyzer.completeB, FileAnalyzer.smallerB,
      Option.isSome_iff_ne_none, hd, hz, Nat.pos_of_ne_zero hz, h2, hlt,
      Nat.not_lt.mpr (Nat.le_of_lt hlt)]

/-- C6: `categorize_files` is a partition. On analyzed files (whose
detected pattern is absent when the size is zero) it returns exactly the
Complete, SmallerConsistent and CorruptedIncomplete files in the spec's
sense, and the three category conditions hold for exactly one category of
every such file. -/
theorem C6_categorize_partition (e : Nat) (rs : List FileAnalyzer.FileAnalysisResult)
    (h : ∀ r ∈ rs, r.actual_size = 0 → r.detected_pattern = none) :
    FileAnalyzer.categorize_files e rs
        = FileAnalyzer.Categorized.mk (rs.filter (FileAnalyzer.completeB e))
            (rs.filter (FileAnalyzer.smallerB e))
            (rs.filter (FileAnalyzer.corruptedB e))
      ∧ ∀ r ∈ rs,
          (FileAnalyzer.completeB e r).toNat + (FileAnalyzer.smallerB e r).toNat
            + (FileAnalyzer.corruptedB e r).toNat = 1 := by
  constructor
  · induction rs with
    | nil => rfl
    | cons r rest ih =>
      have hr := h r (List.mem_cons_self r rest)
      have hrest : ∀ x ∈ rest, x.actual_size = 0 → x.detected_pattern = none :=
        fun x hx => h x (List.mem_cons_of_mem r hx)
      have hbr := categories_of_branches e r hr
      rw [FileAnalyzer.categorize_files]
      by_cases h1 : r.detected_pattern = none ∨ r.actual_size = 0 ∨ r.actual_size > e
      · obtain ⟨hc, hcomp, hsm⟩ := hbr.1 h1
        rw [if_pos h1, ih hrest]
        simp [List.filter_cons, hc, hcomp, hsm]
      · rw [if_neg h1]
        by_cases h2 : r.actual_size = e
        · obtain ⟨hc, hcomp, hsm⟩ := hbr.2.1 h1 h2
          rw [if_pos h2, ih hrest]
          simp [List.filter_cons, hc, hcomp, hsm]
        · obtain ⟨h3, hc, hcomp, hsm⟩ := hbr.2.2 h1 h2
          rw [if_neg h2, if_pos h3, ih hrest]
          simp [List.filter_cons, hc, hcomp, hsm]
  · intro r hrmem
    exact categories_exactly_one e r (h r hrmem)

/-- Three concrete analysis results: one per category. -/
def c6Sample : List FileAnalyzer.FileAnalysisResult :=
  [FileAnalyzer.FileAnalysisResult.mk 1 (some .ZERO) true 100 100,
   FileAnalyzer.FileAnalysisResult.mk 2 (some .ALT_AA) false 40 100,
   FileAnalyzer.FileAnalysisResult.mk 3 none false 0 100]

/-- C6 witness: the partition theorem applied to one file per category. -/
theorem C6_categorize_partition_witness :
    FileAnalyzer.categorize_files 100 c6Sample
        = FileAnalyzer.Categorized.mk (c6Sample.filter (FileAnalyzer.completeB 100))
            (c6Sample.filter (FileAnalyzer.smallerB 100))
            (c6Sample.filter (FileAnalyzer.corruptedB 100))
      ∧ ∀ r ∈ c6Sample,
          (FileAnalyzer.completeB 100 r).toNat + (FileAnalyzer.smallerB 100 r).toNat
            + (FileAnalyzer.corruptedB 100 r).toNat = 1 :=
  C6_categorize_partition 100 c6Sample (by decide)

/-! ## `src/core/test_engine.py`: the write/verify run at chunk granularity

The engine's error-free runs are embedded at chunk granularity: a disk is
a map from 0-based file index to byte content; `_write_file`,
`_write_pattern`, `_verify_pattern` and the pattern loop of `run()` become
folds; the verify phase only consumes generator output. The resume
checkpoint captured once in `_resume_from_session`
(`_initial_resume_pattern` / `_initial_resume_phase` /
`_initial_resume_file`) is the `InitialResume` record. -/

namespace TestEngine

/-- `int(file_size_gb * 1024 * 1024 * 1024)` as computed in
`_write_file`, `_verify_file` and `_verify_pattern`. -/
def file_size_bytes (gb : ℚ) : Nat := (pyTrunc (gb * 1073741824)).toNat

/-- Fast-forward: regenerate and discard `k` chunks. -/
def ffwd (g : PatternGenerator) : Nat → PatternGenerator
  | 0 => g
  | k + 1 => ffwd (g.generate_chunk CHUNK_SIZE).2 k

/-- Generate `k` chunks of `CHUNK_SIZE` bytes, returning them together
with the advanced generator. -/
def genChunks (g : PatternGenerator) : Nat → List (List Nat) × PatternGenerator
  | 0 => ([], g)
  | k + 1 =>
    let p := g.generate_chunk CHUNK_SIZE
    let q := genChunks p.2 k
    (p.1 :: q.1, q.2)

/-- A fixed run configuration: file count, per-file byte size, selected
patterns, random seed. -/
structure RCfg where
  file_count : Nat
  file_size_bytes : Nat
  selected_patterns : List PatternType
  random_seed : Nat

/-- `chunks_total = file_size_bytes // CHUNK_SIZE`. -/
def chunks_total (c : RCfg) : Nat := c.file_size_bytes / CHUNK_SIZE

/-- Generator creation in the pattern loop of `run()`: seeded with the
session's random seed for `RANDOM`, unseeded otherwise. -/
def mkGen (c : RCfg) (pt : PatternType) : PatternGenerator :=
  if pt = .RANDOM then PatternGenerator.init pt (some c.random_seed) 0
  else PatternGenerator.init pt none 0

/-- A disk: byte content per 0-based file index (absent files are `[]`). -/
abbrev Disk := Nat → List Nat

/-- The initial resume checkpoint captured once at session load
(`pat = none` outside resume; the pattern is kept as its value string,
as in `_initial_resume_pattern`). -/
structure InitialResume where
  pat : Option String
  phase : Option Phase
  file : Nat

/-- The no-resume checkpoint of a fresh run (`-1` / `None` / `0` in the
source). -/
def noResume : InitialResume := InitialResume.mk none none 0

/-- The mutable state threaded through the phases: the disk, the pattern
generator and the session's `current_chunk_index`. -/
structure PhaseSt where
  disk : Disk
  g : PatternGenerator
  chunk_index : Nat

/-- `_write_file` without stop/pause and, per the claims, without I/O
errors: resuming mid-file (`current_chunk_index > 0`) fast-forwards the
generator and appends (mode `"ab"`); otherwise the file is written from
scratch (mode `"wb"`). -/
def write_file (cpf chunk_index : Nat) (old : List Nat) (g : PatternGenerator) :
    List Nat × PatternGenerator :=
  if 0 < chunk_index then
    let p := genChunks (ffwd g chunk_index) (cpf - chunk_index)
    (old ++ p.1.flatten, p.2)
  else
    let p := genChunks g cpf
    (p.1.flatten, p.2)

/-- One file of `_write_pattern`: skip when the initial resume checkpoint
says this file was already written for this pattern in the write phase
(the `file_patterns` skip of the source is inactive: the persisted
`SessionData` of `src/core/session.py` declares no such field, so
`hasattr` is false); otherwise write the file and reset
`current_chunk_index`. -/
def write_step (ir : InitialResume) (pt : PatternType) (cpf : Nat)
    (st : PhaseSt) (i : Nat) : PhaseSt :=
  if ir.pat = some pt.value ∧ ir.phase = some .write ∧ i < ir.file then st
  else
    let p := write_file cpf st.chunk_index (st.disk i) st.g
    PhaseSt.mk (Function.update st.disk i p.1) p.2 0

/-- The write phase of one pattern across all files. -/
def write_pattern (ir : InitialResume) (pt : PatternType) (cpf n : Nat)
    (st : PhaseSt) : PhaseSt :=
  (List.range n).foldl (write_step ir pt cpf) st

/-- One file of `_verify_pattern` / `_verify_file`: a file skipped by the
resume checkpoint still fast-forwards the generator by a whole file; a
verified file consumes `current_chunk_index` fast-forwarded chunks plus
the remaining chunks and resets `current_chunk_index`; the disk is never
modified. -/
def verify_step (ir : InitialResume) (pt : PatternType) (cpf : Nat)
    (st : PhaseSt) (i : Nat) : PhaseSt :=
  if ir.pat = some pt.value ∧ ir.phase = some .verify ∧ i < ir.file then
    PhaseSt.mk st.disk (ffwd st.g cpf) st.chunk_index
  else
    PhaseSt.mk st.disk (ffwd (ffwd st.g st.chunk_index) (cpf - st.chunk_index)) 0

/-- The verify phase of one pattern across all files. -/
def verify_pattern (ir : InitialResume) (pt : PatternType) (cpf n : Nat)
    (st : PhaseSt) : PhaseSt :=
  (List.range n).foldl (verify_step ir pt cpf) st

/-- The pattern loop of `run()`: skip patterns already in
`completed_patterns`; otherwise build a fresh generator, run the write
phase, reset the generator, run the verify phase, and append the pattern
to `completed_patterns`. -/
def run_patterns (c : RCfg) (ir : InitialResume) :
    List PatternType → List String → PhaseSt → List String × PhaseSt
  | [], completed, st => (completed, st)
  | pt :: rest, completed, st =>
    if pt.value ∈ completed then run_patterns c ir rest completed st
    else
      let st1 := write_pattern ir pt (chunks_total c) c.file_count { st with g := mkGen c pt }
      let st2 := verify_pattern ir pt (chunks_total c) c.file_count { st1 with g := st1.g.reset }
      run_patterns c ir rest (completed ++ [pt.value]) st2

/-- Placeholder generator before the first pattern builds its own. -/
def gDummy : PatternGenerator := PatternGenerator.init .ZERO none 0

/-- An uninterrupted from-scratch run: empty disk, no resume checkpoint,
nothing completed, `current_chunk_index = 0`. -/
def scratch_run (c : RCfg) : Disk :=
  (run_patterns c noResume c.selected_patterns [] (PhaseSt.mk (fun _ => []) gDummy 0)).2.disk

/-- The session fields that drive a resumed run. -/
structure SessionSnap where
  current_pattern_name : String
  current_phase : Phase
  current_file_index : Nat
  current_chunk_index : Nat
  completed_patterns : List String

/-- A resumed run: the initial resume checkpoint is captured from the
loaded session once, the completed list and `current_chunk_index` start
from the session, and the disk is whatever the suspended run left. -/
def resume_run (c : RCfg) (s : SessionSnap) (d0 : Disk) : Disk :=
  (run_patterns c
      (InitialResume.mk (some s.current_pattern_name) (some s.current_phase)
        s.current_file_index)
      c.selected_patterns s.completed_patterns
      (PhaseSt.mk d0 gDummy s.current_chunk_index)).2.disk

/-- A chunk-aligned suspension point of a from-scratch run: position `k`
of the current pattern in the selection, the phase, the saved
`current_file_index` and `current_chunk_index` (the number of chunks of
that file already processed when the stop flag was honoured). -/
structure Checkpoint where
  k : Nat
  phase : Phase
  file : Nat
  chunk : Nat

/-- The disk and the persisted session of a from-scratch run suspended at
checkpoint `ck`: the patterns before position `k` ran to completion; in a
write-phase suspension the current pattern has fully written the files
before `ck.file` and the first `ck.chunk` chunks of file `ck.file`; in a
verify-phase suspension its write phase has completed. The saved session
holds exactly the values `_save_session` persists at that boundary. -/
def suspend_state (c : RCfg) (ck : Checkpoint) : Disk × SessionSnap :=
  let P := c.selected_patterns.getD ck.k .ZERO
  let pre := (run_patterns c noResume (c.selected_patterns.take ck.k) []
    (PhaseSt.mk (fun _ => []) gDummy 0))
  match ck.phase with
  | .write =>
    let stA := (List.range ck.file).foldl (write_step noResume P (chunks_total c))
      { pre.2 with g := mkGen c P }
    (Function.update stA.disk ck.file ((genChunks stA.g ck.chunk).1.flatten),
      SessionSnap.mk P.value .write ck.file ck.chunk pre.1)
  | .verify =>
    let stA := write_pattern noResume P (chunks_total c) c.file_count
      { pre.2 with g := mkGen c P }
    (stA.disk, SessionSnap.mk P.value .verify ck.file ck.chunk pre.1)

end TestEngine

namespace TestEngine

/-- The repeated byte of each fixed pattern (proof-side table; `RANDOM`
has no fixed byte and maps to the unused 0). -/
def fixedByte : PatternType → Nat
  | .ZERO => 0
  | .ONE => 255
  | .ALT_AA => 170
  | .ALT_55 => 85
  | .RANDOM => 0

theorem generate_chunk_eq_replicate (g : PatternGenerator)
    (h : g.pattern_type ≠ .RANDOM) (sz : Nat) :
    g.generate_chunk sz = (List.replicate sz (fixedByte g.pattern_type), g) := by
  rcases g with ⟨t, s, r⟩
  cases t <;> simp_all [PatternGenerator.generate_chunk, fixedByte]

theorem ffwd_fixed (g : PatternGenerator) (h : g.pattern_type ≠ .RANDOM) :
    ∀ k, ffwd g k = g
  | 0 => rfl
  | k + 1 => by
    show ffwd (g.generate_chunk CHUNK_SIZE).2 k = g
    rw [generate_chunk_eq_replicate g h]
    exact ffwd_fixed g h k

theorem genChunks_fixed (g : PatternGenerator) (h : g.pattern_type ≠ .RANDOM) :
    ∀ k, genChunks g k
      = (List.replicate k (List.replicate CHUNK_SIZE (fixedByte g.pattern_type)), g)
  | 0 => rfl
  | k + 1 => by
    simp only [genChunks]
    rw [generate_chunk_eq_replicate g h]
    rw [genChunks_fixed g h k]
    simp [List.replicate_succ]

theorem ffwd_add : ∀ (a b : Nat) (g : PatternGenerator),
    ffwd g (a + b) = ffwd (ffwd g a) b
  | 0, b, g => by rw [Nat.zero_add]; rfl
  | a + 1, b, g => by
    rw [show a + 1 + b = (a + b) + 1 from by omega]
    show ffwd (g.generate_chunk CHUNK_SIZE).2 (a + b)
      = ffwd (ffwd (g.generate_chunk CHUNK_SIZE).2 a) b
    exact ffwd_add a b _

theorem genChunks_snd : ∀ (k : Nat) (g : PatternGenerator),
    (genChunks g k).2 = ffwd g k
  | 0, g => rfl
  | k + 1, g => by
    show (genChunks (g.generate_chunk CHUNK_SIZE).2 k).2
      = ffwd (g.generate_chunk CHUNK_SIZE).2 k
    exact genChunks_snd k _

theorem genChunks_add : ∀ (a b : Nat) (g : PatternGenerator),
    (genChunks g (a + b)).1 = (genChunks g a).1 ++ (genChunks (ffwd g a) b).1
  | 0, b, g => by rw [Nat.zero_add]; rfl
  | a + 1, b, g => by
    rw [show a + 1 + b = (a + b) + 1 from by omega]
    show (g.generate_chunk CHUNK_SIZE).1
          :: (genChunks (g.generate_chunk CHUNK_SIZE).2 (a + b)).1
        = ((g.generate_chunk CHUNK_SIZE).1
            :: (genChunks (g.generate_chunk CHUNK_SIZE).2 a).1)
          ++ (genChunks (ffwd g (a + 1)) b).1
    rw [genChunks_add a b _]
    rfl

theorem mkGen_ne_random (c : RCfg) (pt : PatternType) (h : pt ≠ .RANDOM) :
    mkGen c pt = PatternGenerator.mk pt none none := by
  simp [mkGen, h, PatternGenerator.init]

theorem value_injective (a b : PatternType) (h : a.value = b.value) : a = b := by
  cases a <;> cases b <;> first | rfl | exact absurd h (by decide)

theorem write_step_eq_noResume (ir : InitialResume) (pt : PatternType) (cpf : Nat)
    (h : ir.pat ≠ some pt.value ∨ ir.phase ≠ some .write ∨ ir.file = 0) :
    write_step ir pt cpf = write_step noResume pt cpf := by
  funext st i
  unfold write_step
  rw [if_neg (by
      rintro ⟨h1, h2, h3⟩
      rcases h with h | h | h
      · exact h h1
      · exact h h2
      · omega),
    if_neg (by rintro ⟨h1, -, -⟩; simp [noResume] at h1)]

theorem verify_step_eq_noResume (ir : InitialResume) (pt : PatternType) (cpf : Nat)
    (h : ir.pat ≠ some pt.value ∨ ir.phase ≠ some .verify ∨ ir.file = 0) :
    verify_step ir pt cpf = verify_step noResume pt cpf := by
  funext st i
  unfold verify_step
  rw [if_neg (by
      rintro ⟨h1, h2, h3⟩
      rcases h with h | h | h
      · exact h h1
      · exact h h2
      · omega),
    if_neg (by rintro ⟨h1, -, -⟩; simp [noResume] at h1)]

theorem verify_step_chunk_zero (ir : InitialResume) (pt : PatternType) (cpf : Nat)
    (st : PhaseSt) (i : Nat) (h : st.chunk_index = 0) :
    verify_step ir pt cpf st i = PhaseSt.mk st.disk (ffwd st.g cpf) 0 := by
  unfold verify_step
  split_ifs with hc
  · rw [h]
  · rw [h]
    simp [ffwd]

/-- With `current_chunk_index = 0` the verify phase is independent of the
resume checkpoint (a skipped file and a verified file both advance the
generator by one whole file and leave the chunk index at 0). -/
theorem verify_fold_ir (pt : PatternType) (cpf : Nat) :
    ∀ (l : List Nat) (ir irB : InitialResume) (st : PhaseSt),
      st.chunk_index = 0 →
      l.foldl (verify_step ir pt cpf) st = l.foldl (verify_step irB pt cpf) st
  | [], _, _, _, _ => rfl
  | i :: rest, ir, irB, st, h => by
    simp only [List.foldl_cons]
    rw [verify_step_chunk_zero ir pt cpf st i h, verify_step_chunk_zero irB pt cpf st i h]
    exact verify_fold_ir pt cpf rest ir irB _ rfl

theorem write_step_noResume_chunk (pt : PatternType) (cpf : Nat) (st : PhaseSt) (i : Nat) :
    (write_step noResume pt cpf st i).chunk_index = 0 := by
  unfold write_step
  rw [if_neg (by rintro ⟨h1, -, -⟩; simp [noResume] at h1)]

theorem foldl_write_noResume_chunk (pt : PatternType) (cpf : Nat) :
    ∀ (l : List Nat) (st : PhaseSt), st.chunk_index = 0 →
      (l.foldl (write_step noResume pt cpf) st).chunk_index = 0
  | [], st, h => h
  | i :: rest, st, h =>
    foldl_write_noResume_chunk pt cpf rest _ (write_step_noResume_chunk pt cpf st i)

theorem foldl_verify_chunk (ir : InitialResume) (pt : PatternType) (cpf : Nat) :
    ∀ (l : List Nat) (st : PhaseSt), st.chunk_index = 0 →
      (l.foldl (verify_step ir pt cpf) st).chunk_index = 0
  | [], st, h => h
  | i :: rest, st, h => by
    simp only [List.foldl_cons]
    rw [verify_step_chunk_zero ir pt cpf st i h]
    exact foldl_verify_chunk ir pt cpf rest _ rfl

theorem run_patterns_chunk_zero (c : RCfg) :
    ∀ (l : List PatternType) (comp : List String) (st : PhaseSt),
      st.chunk_index = 0 →
      (run_patterns c noResume l comp st).2.chunk_index = 0
  | [], comp, st, h => h
  | pt :: rest, comp, st, h => by
    rw [run_patterns]
    split_ifs with hskip
    · exact run_patterns_chunk_zero c rest comp st h
    · exact run_patterns_chunk_zero c rest _ _
        (foldl_verify_chunk noResume pt (chunks_total c) _ _
          (foldl_write_noResume_chunk pt (chunks_total c) _ _ h))

theorem run_patterns_append (c : RCfg) (ir : InitialResume) :
    ∀ (l₁ l₂ : List PatternType) (comp : List String) (st : PhaseSt),
      run_patterns c ir (l₁ ++ l₂) comp st
        = run_patterns c ir l₂ (run_patterns c ir l₁ comp st).1
            (run_patterns c ir l₁ comp st).2
  | [], l₂, comp, st => rfl
  | pt :: rest, l₂, comp, st => by
    show run_patterns c ir (pt :: (rest ++ l₂)) comp st = _
    rw [run_patterns, run_patterns]
    split_ifs with hskip
    · exact run_patterns_append c ir rest l₂ comp st
    · exact run_patterns_append c ir rest l₂ _ _

theorem run_patterns_skip_all (c : RCfg) (ir : InitialResume) :
    ∀ (l : List PatternType) (comp : List String) (st : PhaseSt),
      (∀ pt ∈ l, pt.value ∈ comp) →
      run_patterns c ir l comp st = (comp, st)
  | [], comp, st, h => rfl
  | pt :: rest, comp, st, h => by
    rw [run_patterns, if_pos (h pt (List.mem_cons_self pt rest))]
    exact run_patterns_skip_all c ir rest comp st
      (fun q hq => h q (List.mem_cons_of_mem pt hq))

theorem run_patterns_completed (c : RCfg) (ir : InitialResume) :
    ∀ (l : List PatternType) (comp : List String) (st : PhaseSt),
      (∀ pt ∈ l, pt.value ∉ comp) →
      (l.map PatternType.value).Nodup →
      (run_patterns c ir l comp st).1 = comp ++ l.map PatternType.value
  | [], comp, st, _, _ => by simp [run_patterns]
  | pt :: rest, comp, st, h, hnd => by
    rw [run_patterns, if_neg (h pt (List.mem_cons_self pt rest))]
    rw [List.map_cons, List.nodup_cons] at hnd
    have hmem : ∀ q ∈ rest, q.value ∉ comp ++ [pt.value] := by
      intro q hq
      simp only [List.mem_append, List.mem_singleton]
      rintro (hin | heq)
      · exact h q (List.mem_cons_of_mem pt hq) hin
      · exact hnd.1 (heq ▸ List.mem_map_of_mem PatternType.value hq)
    rw [run_patterns_completed c ir rest (comp ++ [pt.value]) _ hmem hnd.2]
    simp

theorem run_patterns_ir_irrelevant (c : RCfg) (ir : InitialResume) :
    ∀ (l : List PatternType) (comp : List String) (st : PhaseSt),
      (∀ pt ∈ l, ir.pat ≠ some pt.value) →
      run_patterns c ir l comp st = run_patterns c noResume l comp st
  | [], comp, st, h => rfl
  | pt :: rest, comp, st, h => by
    rw [run_patterns, run_patterns]
    have hw := write_step_eq_noResume ir pt (chunks_total c)
      (Or.inl (h pt (List.mem_cons_self pt rest)))
    have hv := verify_step_eq_noResume ir pt (chunks_total c)
      (Or.inl (h pt (List.mem_cons_self pt rest)))
    split_ifs with hskip
    · exact run_patterns_ir_irrelevant c ir rest comp st
        (fun q hq => h q (List.mem_cons_of_mem pt hq))
    · simp only [write_pattern, verify_pattern, hw, hv]
      exact run_patterns_ir_irrelevant c ir rest _ _
        (fun q hq => h q (List.mem_cons_of_mem pt hq))

/-- A no-skip write phase overwrites every processed file, so its result
does not depend on the initial content of the processed files. -/
theorem write_fold_disk_ext (pt : PatternType) (cpf : Nat) :
    ∀ (l : List Nat) (d dB : Disk) (g : PatternGenerator),
      (∀ j, j ∉ l → d j = dB j) →
      l.foldl (write_step noResume pt cpf) (PhaseSt.mk d g 0)
        = l.foldl (write_step noResume pt cpf) (PhaseSt.mk dB g 0)
  | [], d, dB, g, h => by
    have hd : d = dB := funext (fun j => h j (List.not_mem_nil j))
    rw [hd]
  | i :: rest, d, dB, g, h => by
    simp only [List.foldl_cons]
    have hstep : ∀ dd : Disk, write_step noResume pt cpf (PhaseSt.mk dd g 0) i
        = PhaseSt.mk (Function.update dd i ((genChunks g cpf).1.flatten))
            (genChunks g cpf).2 0 := by
      intro dd
      unfold write_step
      rw [if_neg (by rintro ⟨h1, -, -⟩; simp [noResume] at h1)]
      simp [write_file]
    rw [hstep d, hstep dB]
    refine write_fold_disk_ext pt cpf rest _ _ _ ?_
    intro j hj
    by_cases hji : j = i
    · subst hji
      rw [Function.update_same, Function.update_same]
    · rw [Function.update_noteq hji, Function.update_noteq hji]
      exact h j (by simp only [List.mem_cons, not_or]; exact ⟨hji, hj⟩)

theorem write_file_snd_fixed (cpf ci : Nat) (old : List Nat) (g : PatternGenerator)
    (h : g.pattern_type ≠ .RANDOM) : (write_file cpf ci old g).2 = g := by
  unfold write_file
  split_ifs with hci
  · show (genChunks (ffwd g ci) (cpf - ci)).2 = g
    rw [ffwd_fixed g h ci, genChunks_snd, ffwd_fixed g h]
  · show (genChunks g cpf).2 = g
    rw [genChunks_snd, ffwd_fixed g h]

theorem write_fold_g_fixed (P : PatternType) (cpf : Nat) :
    ∀ (l : List Nat) (st : PhaseSt), st.g.pattern_type ≠ .RANDOM →
      (l.foldl (write_step noResume P cpf) st).g = st.g
  | [], st, _ => rfl
  | i :: rest, st, h => by
    simp only [List.foldl_cons]
    have hstep : write_step noResume P cpf st i
        = PhaseSt.mk (Function.update st.disk i
            (write_file cpf st.chunk_index (st.disk i) st.g).1)
          (write_file cpf st.chunk_index (st.disk i) st.g).2 0 := by
      unfold write_step
      rw [if_neg (by rintro ⟨h1, -, -⟩; simp [noResume] at h1)]
    rw [hstep]
    rw [write_fold_g_fixed P cpf rest _ (by rw [write_file_snd_fixed _ _ _ _ h]; exact h)]
    exact write_file_snd_fixed _ _ _ _ h

theorem write_fold_untouched (P : PatternType) (cpf : Nat) :
    ∀ (l : List Nat) (st : PhaseSt) (j : Nat), j ∉ l →
      (l.foldl (write_step noResume P cpf) st).disk j = st.disk j
  | [], st, j, _ => rfl
  | i :: rest, st, j, hj => by
    simp only [List.foldl_cons]
    rw [write_fold_untouched P cpf rest _ j (fun hmem => hj (List.mem_cons_of_mem i hmem))]
    have hji : j ≠ i := fun hji => hj (hji ▸ List.mem_cons_self i rest)
    unfold write_step
    rw [if_neg (by rintro ⟨h1, -, -⟩; simp [noResume] at h1)]
    exact Function.update_noteq hji _ _

theorem write_fold_skip (P : PatternType) (cpf f : Nat) :
    ∀ (l : List Nat) (st : PhaseSt), (∀ i ∈ l, i < f) →
      l.foldl (write_step (InitialResume.mk (some P.value) (some Phase.write) f) P cpf) st = st
  | [], st, _ => rfl
  | i :: rest, st, h => by
    simp only [List.foldl_cons]
    rw [show write_step (InitialResume.mk (some P.value) (some Phase.write) f) P cpf st i = st from by
      unfold write_step
      rw [if_pos ⟨rfl, rfl, h i (List.mem_cons_self i rest)⟩]]
    exact write_fold_skip P cpf f rest st (fun j hj => h j (List.mem_cons_of_mem i hj))

/-- Appending the remaining chunks of a partially written file to its
already-written prefix reproduces the content of an uninterrupted write of
the whole file, and leaves the generator where an uninterrupted write
would have left it. -/
theorem write_file_append_eq (cpf cq : Nat) (g00 : PatternGenerator) (hc : cq ≤ cpf) :
    write_file cpf cq ((genChunks g00 cq).1.flatten) g00
      = ((genChunks g00 cpf).1.flatten, (genChunks g00 cpf).2) := by
  unfold write_file
  split_ifs with hcq
  · have hsum : cq + (cpf - cq) = cpf := by omega
    show ((genChunks g00 cq).1.flatten ++ (genChunks (ffwd g00 cq) (cpf - cq)).1.flatten,
        (genChunks (ffwd g00 cq) (cpf - cq)).2)
      = ((genChunks g00 cpf).1.flatten, (genChunks g00 cpf).2)
    refine Prod.ext ?_ ?_
    · show (genChunks g00 cq).1.flatten
          ++ (genChunks (ffwd g00 cq) (cpf - cq)).1.flatten
        = (genChunks g00 cpf).1.flatten
      rw [← List.flatten_append, ← genChunks_add, hsum]
    · show (genChunks (ffwd g00 cq) (cpf - cq)).2 = (genChunks g00 cpf).2
      rw [genChunks_snd, genChunks_snd, ← ffwd_add, hsum]
  · rfl

/-- Resuming the write phase of a pattern at file `f`, chunk `cq`,
reproduces the uninterrupted write phase, provided the fold over the
already-written files leaves the generator at its initial state (true for
every fixed pattern, and vacuously for `f = 0`). -/
theorem write_phase_resume (P : PatternType) (cpf n f cq : Nat) (d : Disk)
    (g00 : PatternGenerator) (hf : f < n) (hc : cq ≤ cpf)
    (hg : ((List.range f).foldl (write_step noResume P cpf) (PhaseSt.mk d g00 0)).g = g00) :
    (List.range n).foldl
        (write_step (InitialResume.mk (some P.value) (some Phase.write) f) P cpf)
        (PhaseSt.mk
          (Function.update
            ((List.range f).foldl (write_step noResume P cpf) (PhaseSt.mk d g00 0)).disk f
            ((genChunks ((List.range f).foldl (write_step noResume P cpf)
              (PhaseSt.mk d g00 0)).g cq).1.flatten))
          g00 cq)
      = (List.range n).foldl (write_step noResume P cpf) (PhaseSt.mk d g00 0) := by
  set stA := (List.range f).foldl (write_step noResume P cpf) (PhaseSt.mk d g00 0) with hstA
  have hrange : List.range n = List.range f ++ f :: List.range' (f + 1) (n - (f + 1)) := by
    rw [List.range_eq_range', List.range_eq_range']
    conv_lhs => rw [show n = (n - f) + f from by omega]
    rw [← List.range'_append 0 f (n - f) 1]
    simp only [Nat.zero_add, Nat.one_mul]
    congr 1
    rw [show n - f = (n - (f + 1)) + 1 from by omega, List.range'_succ]
  rw [hrange]
  rw [List.foldl_append, List.foldl_append]
  rw [write_fold_skip P cpf f (List.range f) _ (fun i hi => List.mem_range.mp hi)]
  rw [← hstA]
  simp only [List.foldl_cons]
  have hchunk : stA.chunk_index = 0 :=
    foldl_write_noResume_chunk P cpf (List.range f) _ rfl
  have hmid : write_step (InitialResume.mk (some P.value) (some Phase.write) f) P cpf
      (PhaseSt.mk (Function.update stA.disk f ((genChunks stA.g cq).1.flatten)) g00 cq) f
      = write_step noResume P cpf stA f := by
    unfold write_step
    rw [if_neg (by rintro ⟨-, -, h3⟩; exact absurd h3 (lt_irrefl f)),
      if_neg (by rintro ⟨h1, -, -⟩; simp [noResume] at h1)]
    simp only [Function.update_same, hg, hchunk]
    rw [write_file_append_eq cpf cq g00 hc]
    show PhaseSt.mk (Function.update (Function.update stA.disk f _) f _) _ 0 = _
    rw [Function.update_idem]
    have hwf : write_file cpf 0 (stA.disk f) g00
        = ((genChunks g00 cpf).1.flatten, (genChunks g00 cpf).2) := by
      unfold write_file
      rw [if_neg (by omega)]
    rw [hwf]
  rw [hmid]
  exact List.foldl_ext _ _ _
    (fun st i hi => by
      have hif : ¬ i < f := by
        have := List.mem_range'_1.mp hi
        omega
      unfold write_step
      rw [if_neg (by rintro ⟨-, -, h3⟩; exact hif h3),
        if_neg (by rintro ⟨h1, -, -⟩; simp [noResume] at h1)])

/-- After equal write-phase states with chunk index 0, the verify phase
and all later patterns evolve identically whether or not a resume
checkpoint for the current pattern is active. -/
theorem finish_from_write_state (c : RCfg) (P : PatternType) (suf : List PatternType)
    (comp : List String) (irX : InitialResume) (st1 : PhaseSt)
    (h0 : st1.chunk_index = 0)
    (hsuf : ∀ q ∈ suf, irX.pat ≠ some q.value) :
    (run_patterns c irX suf comp
        (verify_pattern irX P (chunks_total c) c.file_count { st1 with g := st1.g.reset })).2.disk
      = (run_patterns c noResume suf comp
          (verify_pattern noResume P (chunks_total c) c.file_count
            { st1 with g := st1.g.reset })).2.disk := by
  have hv : verify_pattern irX P (chunks_total c) c.file_count { st1 with g := st1.g.reset }
      = verify_pattern noResume P (chunks_total c) c.file_count { st1 with g := st1.g.reset } :=
    verify_fold_ir P (chunks_total c) (List.range c.file_count) irX noResume _ h0
  rw [hv, run_patterns_ir_irrelevant c irX suf _ _ hsuf]

/-- Resume fidelity, write-phase core: with the selection split as
`pre ++ P :: suf`, resuming from a suspension in the write phase of `P`
at file `f`, chunk `cq`, reproduces the from-scratch disk — provided `P`
is fixed or `f = 0`. -/
theorem resume_fidelity_write (c : RCfg) (pre suf : List PatternType) (P : PatternType)
    (f cq : Nat)
    (hsel : c.selected_patterns = pre ++ P :: suf)
    (hndpre : pre.Nodup) (hPpre : P ∉ pre) (hPsuf : P ∉ suf)
    (hf : f < c.file_count) (hc : cq ≤ chunks_total c)
    (hgood : P ≠ .RANDOM ∨ f = 0) :
    resume_run c
      (SessionSnap.mk P.value Phase.write f cq
        (run_patterns c noResume pre [] (PhaseSt.mk (fun _ => []) gDummy 0)).1)
      (Function.update
        (((List.range f).foldl (write_step noResume P (chunks_total c))
          { (run_patterns c noResume pre [] (PhaseSt.mk (fun _ => []) gDummy 0)).2 with
            g := mkGen c P }).disk) f
        ((genChunks ((List.range f).foldl (write_step noResume P (chunks_total c))
          { (run_patterns c noResume pre [] (PhaseSt.mk (fun _ => []) gDummy 0)).2 with
            g := mkGen c P }).g cq).1.flatten))
      = scratch_run c := by
  have hinj : Function.Injective PatternType.value := fun a b hab => value_injective a b hab
  have hpre1 : (run_patterns c noResume pre [] (PhaseSt.mk (fun _ => []) gDummy 0)).1
      = pre.map PatternType.value := by
    rw [run_patterns_completed c noResume pre [] _
      (fun q hq => List.not_mem_nil q.value) (hndpre.map hinj)]
    simp
  have hPnotin : P.value
      ∉ (run_patterns c noResume pre [] (PhaseSt.mk (fun _ => []) gDummy 0)).1 := by
    rw [hpre1]
    intro hmem
    obtain ⟨q, hq, hqv⟩ := List.mem_map.mp hmem
    exact hPpre ((value_injective q P hqv) ▸ hq)
  have hpremem : ∀ pt ∈ pre, pt.value
      ∈ (run_patterns c noResume pre [] (PhaseSt.mk (fun _ => []) gDummy 0)).1 := by
    intro pt hpt
    rw [hpre1]
    exact List.mem_map_of_mem PatternType.value hpt
  have hsufne : ∀ q ∈ suf,
      (some P.value : Option String) ≠ some q.value := by
    intro q hq hcontra
    exact hPsuf ((value_injective P q (Option.some_injective String hcontra)) ▸ hq)
  have hs1c : (run_patterns c noResume pre [] (PhaseSt.mk (fun _ => []) gDummy 0)).2.chunk_index
      = 0 := run_patterns_chunk_zero c pre [] _ rfl
  have hbase : ({ (run_patterns c noResume pre [] (PhaseSt.mk (fun _ => []) gDummy 0)).2 with
        g := mkGen c P } : PhaseSt)
      = PhaseSt.mk (run_patterns c noResume pre []
          (PhaseSt.mk (fun _ => []) gDummy 0)).2.disk (mkGen c P) 0 := by
    show PhaseSt.mk _ _ (run_patterns c noResume pre []
      (PhaseSt.mk (fun _ => []) gDummy 0)).2.chunk_index = _
    rw [hs1c]
  rw [hbase]
  show (run_patterns c (InitialResume.mk (some P.value) (some Phase.write) f)
      c.selected_patterns
      (run_patterns c noResume pre [] (PhaseSt.mk (fun _ => []) gDummy 0)).1
      (PhaseSt.mk
        (Function.update
          (((List.range f).foldl (write_step noResume P (chunks_total c))
            (PhaseSt.mk (run_patterns c noResume pre []
              (PhaseSt.mk (fun _ => []) gDummy 0)).2.disk (mkGen c P) 0)).disk) f
          ((genChunks ((List.range f).foldl (write_step noResume P (chunks_total c))
            (PhaseSt.mk (run_patterns c noResume pre []
              (PhaseSt.mk (fun _ => []) gDummy 0)).2.disk (mkGen c P) 0)).g cq).1.flatten))
        gDummy cq)).2.disk
    = (run_patterns c noResume c.selected_patterns []
        (PhaseSt.mk (fun _ => []) gDummy 0)).2.disk
  rw [hsel, run_patterns_append, run_patterns_append,
    run_patterns_skip_all c _ pre _ _ hpremem,
    run_patterns, run_patterns, if_neg hPnotin, if_neg hPnotin, hbase]
  have hg : ((List.range f).foldl (write_step noResume P (chunks_total c))
      (PhaseSt.mk (run_patterns c noResume pre []
        (PhaseSt.mk (fun _ => []) gDummy 0)).2.disk (mkGen c P) 0)).g = mkGen c P := by
    rcases hgood with hfix | hf0
    · refine write_fold_g_fixed P (chunks_total c) (List.range f) _ ?_
      show (mkGen c P).pattern_type ≠ PatternType.RANDOM
      rw [mkGen_ne_random c P hfix]
      exact hfix
    · rw [hf0]
      rfl
  have hst1 := write_phase_resume P (chunks_total c) c.file_count f cq
    (run_patterns c noResume pre [] (PhaseSt.mk (fun _ => []) gDummy 0)).2.disk
    (mkGen c P) hf hc hg
  show (run_patterns c (InitialResume.mk (some P.value) (some Phase.write) f) suf _
      (verify_pattern (InitialResume.mk (some P.value) (some Phase.write) f) P
        (chunks_total c) c.file_count
        { ((List.range c.file_count).foldl
            (write_step (InitialResume.mk (some P.value) (some Phase.write) f) P
              (chunks_total c))
            (PhaseSt.mk
              (Function.update
                (((List.range f).foldl (write_step noResume P (chunks_total c))
                  (PhaseSt.mk (run_patterns c noResume pre []
                    (PhaseSt.mk (fun _ => []) gDummy 0)).2.disk (mkGen c P) 0)).disk) f
                ((genChunks ((List.range f).foldl (write_step noResume P (chunks_total c))
                  (PhaseSt.mk (run_patterns c noResume pre []
                    (PhaseSt.mk (fun _ => []) gDummy 0)).2.disk
                    (mkGen c P) 0)).g cq).1.flatten))
              (mkGen c P) cq)) with
          g := ((List.range c.file_count).foldl
            (write_step (InitialResume.mk (some P.value) (some Phase.write) f) P
              (chunks_total c))
            (PhaseSt.mk
              (Function.update
                (((List.range f).foldl (write_step noResume P (chunks_total c))
                  (PhaseSt.mk (run_patterns c noResume pre []
                    (PhaseSt.mk (fun _ => []) gDummy 0)).2.disk (mkGen c P) 0)).disk) f
                ((genChunks ((List.range f).foldl (write_step noResume P (chunks_total c))
                  (PhaseSt.mk (run_patterns c noResume pre []
                    (PhaseSt.mk (fun _ => []) gDummy 0)).2.disk
                    (mkGen c P) 0)).g cq).1.flatten))
              (mkGen c P) cq)).g.reset })).2.disk
    = (run_patterns c noResume suf _
        (verify_pattern noResume P (chunks_total c) c.file_count
          { ((List.range c.file_count).foldl (write_step noResume P (chunks_total c))
              (PhaseSt.mk (run_patterns c noResume pre []
                (PhaseSt.mk (fun _ => []) gDummy 0)).2.disk (mkGen c P) 0)) with
            g := ((List.range c.file_count).foldl (write_step noResume P (chunks_total c))
              (PhaseSt.mk (run_patterns c noResume pre []
                (PhaseSt.mk (fun _ => []) gDummy 0)).2.disk (mkGen c P) 0)).g.reset })).2.disk
  rw [hst1]
  exact finish_from_write_state c P suf _
    (InitialResume.mk (some P.value) (some Phase.write) f)
    ((List.range c.file_count).foldl (write_step noResume P (chunks_total c))
      (PhaseSt.mk (run_patterns c noResume pre []
        (PhaseSt.mk (fun _ => []) gDummy 0)).2.disk (mkGen c P) 0))
    (foldl_write_noResume_chunk P (chunks_total c) (List.range c.file_count) _ rfl)
    (fun q hq => hsufne q hq)

/-- Resume fidelity, verify-phase core: with the selection split as
`pre ++ P :: suf`, resuming from a suspension in the verify phase of `P`
at chunk index 0 reproduces the from-scratch disk (the resumed run
re-runs the whole write phase of `P`, rewriting every file from
scratch). -/
theorem resume_fidelity_verify (c : RCfg) (pre suf : List PatternType) (P : PatternType)
    (f : Nat)
    (hsel : c.selected_patterns = pre ++ P :: suf)
    (hndpre : pre.Nodup) (hPpre : P ∉ pre) (hPsuf : P ∉ suf) :
    resume_run c
      (SessionSnap.mk P.value Phase.verify f 0
        (run_patterns c noResume pre [] (PhaseSt.mk (fun _ => []) gDummy 0)).1)
      ((write_pattern noResume P (chunks_total c) c.file_count
        { (run_patterns c noResume pre [] (PhaseSt.mk (fun _ => []) gDummy 0)).2 with
          g := mkGen c P }).disk)
      = scratch_run c := by
  have hinj : Function.Injective PatternType.value := fun a b hab => value_injective a b hab
  have hpre1 : (run_patterns c noResume pre [] (PhaseSt.mk (fun _ => []) gDummy 0)).1
      = pre.map PatternType.value := by
    rw [run_patterns_completed c noResume pre [] _
      (fun q hq => List.not_mem_nil q.value) (hndpre.map hinj)]
    simp
  have hPnotin : P.value
      ∉ (run_patterns c noResume pre [] (PhaseSt.mk (fun _ => []) gDummy 0)).1 := by
    rw [hpre1]
    intro hmem
    obtain ⟨q, hq, hqv⟩ := List.mem_map.mp hmem
    exact hPpre ((value_injective q P hqv) ▸ hq)
  have hpremem : ∀ pt ∈ pre, pt.value
      ∈ (run_patterns c noResume pre [] (PhaseSt.mk (fun _ => []) gDummy 0)).1 := by
    intro pt hpt
    rw [hpre1]
    exact List.mem_map_of_mem PatternType.value hpt
  have hsufne : ∀ q ∈ suf,
      (some P.value : Option String) ≠ some q.value := by
    intro q hq hcontra
    exact hPsuf ((value_injective P q (Option.some_injective String hcontra)) ▸ hq)
  have hs1c : (run_patterns c noResume pre [] (PhaseSt.mk (fun _ => []) gDummy 0)).2.chunk_index
      = 0 := run_patterns_chunk_zero c pre [] _ rfl
  have hbase : ({ (run_patterns c noResume pre [] (PhaseSt.mk (fun _ => []) gDummy 0)).2 with
        g := mkGen c P } : PhaseSt)
      = PhaseSt.mk (run_patterns c noResume pre []
          (PhaseSt.mk (fun _ => []) gDummy 0)).2.disk (mkGen c P) 0 := by
    show PhaseSt.mk _ _ (run_patterns c noResume pre []
      (PhaseSt.mk (fun _ => []) gDummy 0)).2.chunk_index = _
    rw [hs1c]
  rw [hbase]
  show (run_patterns c (InitialResume.mk (some P.value) (some Phase.verify) f)
      c.selected_patterns
      (run_patterns c noResume pre [] (PhaseSt.mk (fun _ => []) gDummy 0)).1
      (PhaseSt.mk
        ((write_pattern noResume P (chunks_total c) c.file_count
          (PhaseSt.mk (run_patterns c noResume pre []
            (PhaseSt.mk (fun _ => []) gDummy 0)).2.disk (mkGen c P) 0)).disk)
        gDummy 0)).2.disk
    = (run_patterns c noResume c.selected_patterns []
        (PhaseSt.mk (fun _ => []) gDummy 0)).2.disk
  rw [hsel, run_patterns_append, run_patterns_append,
    run_patterns_skip_all c _ pre _ _ hpremem,
    run_patterns, run_patterns, if_neg hPnotin, if_neg hPnotin, hbase]
  have hwr : write_pattern (InitialResume.mk (some P.value) (some Phase.verify) f) P
      (chunks_total c) c.file_count
      (PhaseSt.mk
        ((write_pattern noResume P (chunks_total c) c.file_count
          (PhaseSt.mk (run_patterns c noResume pre []
            (PhaseSt.mk (fun _ => []) gDummy 0)).2.disk (mkGen c P) 0)).disk)
        (mkGen c P) 0)
      = write_pattern noResume P (chunks_total c) c.file_count
          (PhaseSt.mk (run_patterns c noResume pre []
            (PhaseSt.mk (fun _ => []) gDummy 0)).2.disk (mkGen c P) 0) := by
    unfold write_pattern
    rw [write_step_eq_noResume (InitialResume.mk (some P.value) (some Phase.verify) f) P
      (chunks_total c) (Or.inr (Or.inl (by simp)))]
    exact write_fold_disk_ext P (chunks_total c) (List.range c.file_count) _ _ (mkGen c P)
      (fun j hj => write_fold_untouched P (chunks_total c) (List.range c.file_count) _ j hj)
  show (run_patterns c (InitialResume.mk (some P.value) (some Phase.verify) f) suf _
      (verify_pattern (InitialResume.mk (some P.value) (some Phase.verify) f) P
        (chunks_total c) c.file_count
        { (write_pattern (InitialResume.mk (some P.value) (some Phase.verify) f) P
            (chunks_total c) c.file_count
            (PhaseSt.mk
              ((write_pattern noResume P (chunks_total c) c.file_count
                (PhaseSt.mk (run_patterns c noResume pre []
                  (PhaseSt.mk (fun _ => []) gDummy 0)).2.disk (mkGen c P) 0)).disk)
              (mkGen c P) 0)) with
          g := (write_pattern (InitialResume.mk (some P.value) (some Phase.verify) f) P
            (chunks_total c) c.file_count
            (PhaseSt.mk
              ((write_pattern noResume P (chunks_total c) c.file_count
                (PhaseSt.mk (run_patterns c noResume pre []
                  (PhaseSt.mk (fun _ => []) gDummy 0)).2.disk (mkGen c P) 0)).disk)
              (mkGen c P) 0)).g.reset })).2.disk
    = (run_patterns c noResume suf _
        (verify_pattern noResume P (chunks_total c) c.file_count
          { (write_pattern noResume P (chunks_total c) c.file_count
              (PhaseSt.mk (run_patterns c noResume pre []
                (PhaseSt.mk (fun _ => []) gDummy 0)).2.disk (mkGen c P) 0)) with
            g := (write_pattern noResume P (chunks_total c) c.file_count
              (PhaseSt.mk (run_patterns c noResume pre []
                (PhaseSt.mk (fun _ => []) gDummy 0)).2.disk (mkGen c P) 0)).g.reset })).2.disk
  rw [hwr]
  exact finish_from_write_state c P suf _
    (InitialResume.mk (some P.value) (some Phase.verify) f)
    (write_pattern noResume P (chunks_total c) c.file_count
      (PhaseSt.mk (run_patterns c noResume pre []
        (PhaseSt.mk (fun _ => []) gDummy 0)).2.disk (mkGen c P) 0))
    (foldl_write_noResume_chunk P (chunks_total c) (List.range c.file_count) _ rfl)
    (fun q hq => hsufne q hq)

/-- The verify phase never modifies the disk. -/
theorem verify_fold_disk (ir : InitialResume) (pt : PatternType) (cpf : Nat) :
    ∀ (l : List Nat) (st : PhaseSt),
      (l.foldl (verify_step ir pt cpf) st).disk = st.disk
  | [], _ => rfl
  | i :: rest, st => by
    simp only [List.foldl_cons]
    rw [verify_fold_disk ir pt cpf rest _]
    unfold verify_step
    split_ifs <;> rfl

theorem verify_pattern_disk (ir : InitialResume) (pt : PatternType) (cpf n : Nat)
    (st : PhaseSt) : (verify_pattern ir pt cpf n st).disk = st.disk :=
  verify_fold_disk ir pt cpf (List.range n) st

/-- The configuration of the C3 counterexample: one file of two chunks,
only the AltAA pattern, seed 0. -/
def c3cfg : RCfg := RCfg.mk 1 67108864 [PatternType.ALT_AA] 0

/-- The C3 counterexample checkpoint: suspended in the Verify phase of
AltAA, file 0, after 1 of 2 chunks. -/
def c3ck : Checkpoint := Checkpoint.mk 0 Phase.verify 0 1

theorem c3_gAA : mkGen c3cfg PatternType.ALT_AA
    = PatternGenerator.mk PatternType.ALT_AA none none :=
  mkGen_ne_random c3cfg PatternType.ALT_AA (by decide)

theorem c3_cpf : chunks_total c3cfg = 2 := by decide

theorem c3_write_file (ci : Nat) (old : List Nat) :
    write_file (chunks_total c3cfg) ci old (PatternGenerator.mk PatternType.ALT_AA none none)
      = (if 0 < ci then
            old ++ (List.replicate (2 - ci) (List.replicate CHUNK_SIZE 170)).flatten
          else (List.replicate 2 (List.replicate CHUNK_SIZE 170)).flatten,
        PatternGenerator.mk PatternType.ALT_AA none none) := by
  rw [c3_cpf]
  unfold write_file
  split_ifs with h
  · rw [ffwd_fixed _ (by decide), genChunks_fixed _ (by decide)]
    rfl
  · rw [genChunks_fixed _ (by decide)]
    rfl

theorem c3_write_pattern (d : Disk) (ci : Nat) :
    write_pattern noResume PatternType.ALT_AA (chunks_total c3cfg) c3cfg.file_count
        (PhaseSt.mk d (PatternGenerator.mk PatternType.ALT_AA none none) ci)
      = PhaseSt.mk
          (Function.update d 0
            (if 0 < ci then
                d 0 ++ (List.replicate (2 - ci) (List.replicate CHUNK_SIZE 170)).flatten
              else (List.replicate 2 (List.replicate CHUNK_SIZE 170)).flatten))
          (PatternGenerator.mk PatternType.ALT_AA none none) 0 := by
  show [0].foldl (write_step noResume PatternType.ALT_AA (chunks_total c3cfg))
      (PhaseSt.mk d (PatternGenerator.mk PatternType.ALT_AA none none) ci) = _
  simp only [List.foldl_cons, List.foldl_nil]
  unfold write_step
  rw [if_neg (by rintro ⟨h1, -, -⟩; simp [noResume] at h1)]
  show PhaseSt.mk
      (Function.update d 0
        (write_file (chunks_total c3cfg) ci (d 0)
          (PatternGenerator.mk PatternType.ALT_AA none none)).1)
      (write_file (chunks_total c3cfg) ci (d 0)
        (PatternGenerator.mk PatternType.ALT_AA none none)).2 0 = _
  rw [c3_write_file]

theorem c3_scratch_at0 : scratch_run c3cfg 0
    = (List.replicate 2 (List.replicate CHUNK_SIZE 170)).flatten := by
  rw [scratch_run]
  show ((run_patterns c3cfg noResume [PatternType.ALT_AA] []
    (PhaseSt.mk (fun _ => []) gDummy 0)).2.disk) 0 = _
  rw [run_patterns, if_neg (by simp)]
  show (verify_pattern noResume PatternType.ALT_AA (chunks_total c3cfg) c3cfg.file_count
      { (write_pattern noResume PatternType.ALT_AA (chunks_total c3cfg) c3cfg.file_count
          (PhaseSt.mk (fun _ => []) (mkGen c3cfg PatternType.ALT_AA) 0)) with
        g := (write_pattern noResume PatternType.ALT_AA (chunks_total c3cfg) c3cfg.file_count
          (PhaseSt.mk (fun _ => []) (mkGen c3cfg PatternType.ALT_AA) 0)).g.reset }).disk 0 = _
  rw [verify_pattern_disk]
  show (write_pattern noResume PatternType.ALT_AA (chunks_total c3cfg) c3cfg.file_count
      (PhaseSt.mk (fun _ => []) (mkGen c3cfg PatternType.ALT_AA) 0)).disk 0 = _
  rw [c3_gAA, c3_write_pattern]
  dsimp only
  rw [Function.update_same, if_neg (lt_irrefl 0)]

theorem c3_resumed_at0 :
    resume_run c3cfg (suspend_state c3cfg c3ck).2 (suspend_state c3cfg c3ck).1 0
      = (List.replicate 2 (List.replicate CHUNK_SIZE 170)).flatten
        ++ (List.replicate 1 (List.replicate CHUNK_SIZE 170)).flatten := by
  rw [resume_run]
  show ((run_patterns c3cfg (InitialResume.mk (some "AA") (some Phase.verify) 0)
      [PatternType.ALT_AA] []
      (PhaseSt.mk
        (write_pattern noResume PatternType.ALT_AA (chunks_total c3cfg) c3cfg.file_count
          (PhaseSt.mk (fun _ => []) (mkGen c3cfg PatternType.ALT_AA) 0)).disk
        gDummy 1)).2.disk) 0 = _
  rw [run_patterns, if_neg (by simp)]
  show (verify_pattern (InitialResume.mk (some "AA") (some Phase.verify) 0)
      PatternType.ALT_AA (chunks_total c3cfg) c3cfg.file_count
      { (write_pattern (InitialResume.mk (some "AA") (some Phase.verify) 0)
          PatternType.ALT_AA (chunks_total c3cfg) c3cfg.file_count
          (PhaseSt.mk
            (write_pattern noResume PatternType.ALT_AA (chunks_total c3cfg) c3cfg.file_count
              (PhaseSt.mk (fun _ => []) (mkGen c3cfg PatternType.ALT_AA) 0)).disk
            (mkGen c3cfg PatternType.ALT_AA) 1)) with
        g := (write_pattern (InitialResume.mk (some "AA") (some Phase.verify) 0)
          PatternType.ALT_AA (chunks_total c3cfg) c3cfg.file_count
          (PhaseSt.mk
            (write_pattern noResume PatternType.ALT_AA (chunks_total c3cfg) c3cfg.file_count
              (PhaseSt.mk (fun _ => []) (mkGen c3cfg PatternType.ALT_AA) 0)).disk
            (mkGen c3cfg PatternType.ALT_AA) 1)).g.reset }).disk 0 = _
  rw [verify_pattern_disk]
  show (write_pattern (InitialResume.mk (some "AA") (some Phase.verify) 0)
      PatternType.ALT_AA (chunks_total c3cfg) c3cfg.file_count
      (PhaseSt.mk
        (write_pattern noResume PatternType.ALT_AA (chunks_total c3cfg) c3cfg.file_count
          (PhaseSt.mk (fun _ => []) (mkGen c3cfg PatternType.ALT_AA) 0)).disk
        (mkGen c3cfg PatternType.ALT_AA) 1)).disk 0 = _
  have hwp : write_pattern (InitialResume.mk (some "AA") (some Phase.verify) 0)
      PatternType.ALT_AA (chunks_total c3cfg)
      = write_pattern noResume PatternType.ALT_AA (chunks_total c3cfg) := by
    unfold write_pattern
    rw [write_step_eq_noResume (InitialResume.mk (some "AA") (some Phase.verify) 0)
      PatternType.ALT_AA (chunks_total c3cfg) (Or.inr (Or.inl (by simp)))]
  rw [hwp]
  rw [c3_gAA, c3_write_pattern, c3_write_pattern]
  dsimp only
  rw [Function.update_same, if_pos (by omega : (0 : Nat) < 1), Function.update_same,
    if_neg (lt_irrefl 0)]

end TestEngine

/-- C3 counterexample: the claim as stated fails. For one AltAA file of
two chunks, suspending the from-scratch run in the Verify phase of file 0
after one chunk (a legitimate chunk-aligned checkpoint) and resuming
yields a file of three chunks (100663296 bytes) instead of two (67108864
bytes): the resumed run re-runs the write phase and, seeing the loaded
`current_chunk_index = 1`, opens the already-complete file in append mode
and appends the remaining chunk. -/
theorem C3_counterexample :
    TestEngine.c3ck.k < TestEngine.c3cfg.selected_patterns.length
      ∧ TestEngine.c3ck.file < TestEngine.c3cfg.file_count
      ∧ TestEngine.c3ck.chunk ≤ TestEngine.chunks_total TestEngine.c3cfg
      ∧ TestEngine.c3cfg.selected_patterns.Nodup
      ∧ (TestEngine.resume_run TestEngine.c3cfg
          (TestEngine.suspend_state TestEngine.c3cfg TestEngine.c3ck).2
          (TestEngine.suspend_state TestEngine.c3cfg TestEngine.c3ck).1 0).length
        = 100663296
      ∧ (TestEngine.scratch_run TestEngine.c3cfg 0).length = 67108864
      ∧ TestEngine.resume_run TestEngine.c3cfg
          (TestEngine.suspend_state TestEngine.c3cfg TestEngine.c3ck).2
          (TestEngine.suspend_state TestEngine.c3cfg TestEngine.c3ck).1
        ≠ TestEngine.scratch_run TestEngine.c3cfg := by
  have hlen : ∀ k b : Nat,
      ((List.replicate k (List.replicate TestEngine.CHUNK_SIZE b)).flatten).length
        = k * TestEngine.CHUNK_SIZE := by
    intro k b
    rw [List.length_flatten, List.map_replicate, List.length_replicate,
      List.sum_replicate, smul_eq_mul]
  have hres : (TestEngine.resume_run TestEngine.c3cfg
      (TestEngine.suspend_state TestEngine.c3cfg TestEngine.c3ck).2
      (TestEngine.suspend_state TestEngine.c3cfg TestEngine.c3ck).1 0).length
      = 100663296 := by
    rw [TestEngine.c3_resumed_at0, List.length_append, hlen, hlen]
    decide
  have hscr : (TestEngine.scratch_run TestEngine.c3cfg 0).length = 67108864 := by
    rw [TestEngine.c3_scratch_at0, hlen]
    decide
  refine ⟨by decide, by decide, by decide, by decide, hres, hscr, ?_⟩
  intro heq
  have h0 : (TestEngine.resume_run TestEngine.c3cfg
      (TestEngine.suspend_state TestEngine.c3cfg TestEngine.c3ck).2
      (TestEngine.suspend_state TestEngine.c3cfg TestEngine.c3ck).1 0).length
      = (TestEngine.scratch_run TestEngine.c3cfg 0).length := by
    rw [congrFun heq 0]
  rw [hres, hscr] at h0
  exact absurd h0 (by decide)


/-- C3 (amended): resume fidelity. For a fixed configuration with
pairwise-distinct selected patterns, a run suspended at a chunk-aligned
checkpoint and resumed from the persisted session produces test files
byte-identical to an uninterrupted from-scratch run, whenever the
checkpoint is (a) in the Write phase of a fixed (non-Random) pattern, or
(b) in the Write phase of the Random pattern at file index 0, or (c) in
the Verify phase at chunk index 0. The skip logic honours the resume
checkpoint captured once at session load. -/
theorem C3_resume_fidelity (c : TestEngine.RCfg) (ck : TestEngine.Checkpoint)
    (hnodup : c.selected_patterns.Nodup)
    (hk : ck.k < c.selected_patterns.length)
    (hf : ck.file < c.file_count)
    (hc : ck.chunk ≤ TestEngine.chunks_total c)
    (hgood : (ck.phase = .write
          ∧ (c.selected_patterns.getD ck.k .ZERO ≠ .RANDOM ∨ ck.file = 0))
        ∨ (ck.phase = .verify ∧ ck.chunk = 0)) :
    TestEngine.resume_run c (TestEngine.suspend_state c ck).2
        (TestEngine.suspend_state c ck).1
      = TestEngine.scratch_run c := by
  obtain ⟨k, phase, f, cq⟩ := ck
  simp only at hk hf hc hgood
  have hsel : c.selected_patterns
      = c.selected_patterns.take k
        ++ c.selected_patterns.getD k .ZERO :: c.selected_patterns.drop (k + 1) := by
    rw [List.getD_eq_getElem c.selected_patterns _ hk,
      ← List.drop_eq_getElem_cons hk, List.take_append_drop]
  have hnd2 : (c.selected_patterns.take k
      ++ c.selected_patterns.getD k .ZERO :: c.selected_patterns.drop (k + 1)).Nodup :=
    hsel ▸ hnodup
  rw [List.nodup_append] at hnd2
  obtain ⟨hndpre, hndcons, hdisj⟩ := hnd2
  have hPpre : c.selected_patterns.getD k .ZERO ∉ c.selected_patterns.take k :=
    fun hmem => hdisj hmem (List.mem_cons_self _ _)
  have hPsuf : c.selected_patterns.getD k .ZERO ∉ c.selected_patterns.drop (k + 1) :=
    (List.nodup_cons.mp hndcons).1
  rcases hgood with ⟨hph, hPor⟩ | ⟨hph, hcq0⟩
  · subst hph
    exact TestEngine.resume_fidelity_write c (c.selected_patterns.take k)
      (c.selected_patterns.drop (k + 1)) (c.selected_patterns.getD k .ZERO) f cq
      hsel hndpre hPpre hPsuf hf hc hPor
  · subst hph
    subst hcq0
    exact TestEngine.resume_fidelity_verify c (c.selected_patterns.take k)
      (c.selected_patterns.drop (k + 1)) (c.selected_patterns.getD k .ZERO) f
      hsel hndpre hPpre hPsuf


/-- The C3 witness configuration: two AltAA-pattern files of two chunks
each. -/
def c3wcfg : TestEngine.RCfg := TestEngine.RCfg.mk 2 67108864 [PatternType.ALT_AA] 0

/-- The C3 witness checkpoint: Write phase of AltAA, file 1, chunk 1. -/
def c3wck : TestEngine.Checkpoint := TestEngine.Checkpoint.mk 0 Phase.write 1 1

/-- C3 witness: the amended resume-fidelity theorem applied to a concrete
Write-phase checkpoint of a fixed pattern. -/
theorem C3_resume_fidelity_witness :
    TestEngine.resume_run c3wcfg (TestEngine.suspend_state c3wcfg c3wck).2
        (TestEngine.suspend_state c3wcfg c3wck).1
      = TestEngine.scratch_run c3wcfg :=
  C3_resume_fidelity c3wcfg c3wck (by decide) (by decide) (by decide) (by decide)
    (Or.inl ⟨rfl, Or.inl (by decide)⟩)

/-- The C2 configuration: one file of 3/64 GB (48 MiB). -/
def c2cfg : TestEngine.RCfg :=
  TestEngine.RCfg.mk 1 (TestEngine.file_size_bytes (3 / 64)) [PatternType.ALT_AA] 0

/-- C2: the FileAnalyzer and the TestEngine disagree on the per-file
target size. The analyzer's chunk size is 16 MiB while the engine's is
32 MiB, so for a requested file size of 3/64 GB (48 MiB) the analyzer
expects 50331648 bytes while the engine's write phase produces only
33554432 bytes for the file — even though the analyzer's own comment
says its chunk size must match `test_engine.py`. -/
theorem C2_chunk_size_mismatch :
    FileAnalyzer.CHUNK_SIZE ≠ TestEngine.CHUNK_SIZE
      ∧ FileAnalyzer.expected_size (3 / 64) = 50331648
      ∧ (TestEngine.write_file (TestEngine.chunks_total c2cfg) 0 []
          (TestEngine.mkGen c2cfg .ALT_AA)).1.length = 33554432
      ∧ FileAnalyzer.expected_size (3 / 64)
        ≠ (TestEngine.write_file (TestEngine.chunks_total c2cfg) 0 []
            (TestEngine.mkGen c2cfg .ALT_AA)).1.length := by
  have htr : pyTrunc ((3 : ℚ) / 64 * 1073741824) = 50331648 := by
    rw [pyTrunc, if_pos (by norm_num)]
    norm_num
  have hfsb : TestEngine.file_size_bytes (3 / 64) = 50331648 := by
    rw [TestEngine.file_size_bytes, htr]
    rfl
  have hexp : FileAnalyzer.expected_size (3 / 64) = 50331648 := by
    rw [FileAnalyzer.expected_size, FileAnalyzer.file_size_bytes, htr]
    decide
  have hcpf : TestEngine.chunks_total c2cfg = 1 := by
    show TestEngine.file_size_bytes (3 / 64) / TestEngine.CHUNK_SIZE = 1
    rw [hfsb]
    decide
  have hwlen : (TestEngine.write_file (TestEngine.chunks_total c2cfg) 0 []
      (TestEngine.mkGen c2cfg .ALT_AA)).1.length = 33554432 := by
    rw [hcpf, TestEngine.mkGen_ne_random c2cfg _ (by decide)]
    show ((TestEngine.genChunks (PatternGenerator.mk PatternType.ALT_AA none none) 1).1.flatten).length = _
    rw [TestEngine.genChunks_fixed _ (by decide), List.length_flatten, List.map_replicate,
      List.length_replicate, List.sum_replicate, smul_eq_mul]
    decide
  refine ⟨by decide, hexp, hwlen, ?_⟩
  rw [hexp, hwlen]
  decide

end Disktest
